import Mathlib

/-!
# hng::defer — guarded blocks (`HNG_DT_DEFER_FINALLY ... HNG_DT_TRY ... HNG_DT_END`)

Shallow embedding of `hng/defer/include/hng/defer/defer.h`.

* Caller state captured by reference (`[&]`) is an explicit state `S` that every
  block receives and hands back.
* A block (a lambda `[&]{ ... }`) either returns a value or throws; it is a function
  `S → Outcome V × S`.
* A thrown C++ exception object is a value of `Exn`; `std::exception_ptr` is `Option Exn`
  (`none` is the null pointer).
-/

namespace hng

/-- The class `hng::defer_exception`: a `std::runtime_error` (message `what`) with the
member `m_exception_ptr`, a `std::exception_ptr` (`none` is the null pointer). `E` is the
type of exception objects a `std::exception_ptr` can point to. -/
structure defer_exception (E : Type) where
  what : String
  m_exception_ptr : Option E

namespace defer_exception

/-- The constructors `defer_exception(char const* message, std::exception_ptr ...)` and
`defer_exception(std::string const& message, std::exception_ptr ...)`. -/
def of_message {E : Type} (message : String) (exception_ptr : Option E) :
    defer_exception E :=
  ⟨message, exception_ptr⟩

/-- The constructors `defer_exception(std::exception_ptr&&)` and
`defer_exception(std::exception_ptr const&)`, which delegate to
`defer_exception("defer exception", exception_ptr)`. -/
def of_exception_ptr {E : Type} (exception_ptr : Option E) : defer_exception E :=
  of_message "defer exception" exception_ptr

/-- The default constructor `defer_exception() : runtime_error("defer exception") {}`; the
member `m_exception_ptr{}` is the null pointer. -/
def default_constructed {E : Type} : defer_exception E :=
  ⟨"defer exception", none⟩

/-- The member function `exception_ptr()`. -/
def exception_ptr {E : Type} (d : defer_exception E) : Option E :=
  d.m_exception_ptr

end defer_exception

/-- Exception objects that travel through the guarded block.
`runtime_error` is `std::runtime_error(what)`;
`defer_exception` is a plain `hng::defer_exception`;
`nested_defer_exception` is the object thrown by
`std::throw_with_nested(hng::defer_exception(...))`: its type derives from both
`hng::defer_exception` (the `base`) and `std::nested_exception`, and `nested_ptr` is what
`std::current_exception()` returned when it was built. -/
inductive Exn where
  | runtime_error (what : String)
  | defer_exception (base : hng.defer_exception Exn)
  | nested_defer_exception (base : hng.defer_exception Exn) (nested_ptr : Option Exn)

namespace Exn

/-- The virtual `what()` of the exception object. -/
def what : Exn → String
  | .runtime_error w => w
  | .defer_exception b => b.what
  | .nested_defer_exception b _ => b.what

/-- The binding made by a handler `catch (hng::defer_exception const& dex)`: the
`hng::defer_exception` base of the object, `none` when the handler does not match. -/
def as_defer_exception : Exn → Option (hng.defer_exception Exn)
  | .runtime_error _ => none
  | .defer_exception b => some b
  | .nested_defer_exception b _ => some b

end Exn

/-- How the evaluation of a block ends: by returning a value or by throwing. -/
inductive Outcome (V : Type) where
  | returned (v : V)
  | thrown (e : Exn)

/-- A lambda `[&]{ ... }` with result type `V` over the captured caller state `S`. -/
abbrev Block (S V : Type) := S → Outcome V × S

/-- The call `std::throw_with_nested(t)` for a `hng::defer_exception` `t`, in a handler
whose current exception is `current_exception`: the thrown object derives from both
`hng::defer_exception` (copy of `t`) and `std::nested_exception` (holding
`current_exception`). -/
def throw_with_nested (t : defer_exception Exn) (current_exception : Option Exn) : Exn :=
  .nested_defer_exception t current_exception

/-- The macro `DETAIL_HNG_DT_END_INVOKE_FINALLY(trycaught)`.
`trycaught` is `none` for the expansion with argument `0` and `some e` for the
expansion with argument `1`, which only occurs inside the `catch(...)` handler of
`HNG_DT_END`, where `e` is the exception being handled (what `std::current_exception()`
returns there). `mode` is `DETAIL_HNG_DT_mode`. -/
def DETAIL_HNG_DT_END_INVOKE_FINALLY {S : Type} (trycaught : Option Exn) (mode : Nat)
    (DETAIL_HNG_DT_finally : Block S Unit) (s : S) : Outcome Unit × S :=
  match trycaught with
  | some current_exception =>
    if 1 = mode then
      let DETAIL_HNG_DT_try_block_exception := current_exception
      match DETAIL_HNG_DT_finally s with
      | (.returned _, s1) => (.returned (), s1)
      | (.thrown e_f, s1) =>
        let DETAIL_HNG_DT_defer_block_exception := some e_f
        -- rethrow_exception(try_block_exception) is caught by the inner catch(...)
        (.thrown (throw_with_nested
          (defer_exception.of_exception_ptr DETAIL_HNG_DT_defer_block_exception)
          (some DETAIL_HNG_DT_try_block_exception)), s1)
    else DETAIL_HNG_DT_finally s
  | none => DETAIL_HNG_DT_finally s

/-- The macro `DETAIL_HNG_DT_END_TRY_STATEMENTS`. Its three branches (result type `void`,
lvalue reference, anything else) share one control flow: evaluate
`::std::move(DETAIL_HNG_DT_try_fn)()` into `DETAIL_HNG_DT_result`, set
`DETAIL_HNG_DT_invoked`, expand `DETAIL_HNG_DT_END_INVOKE_FINALLY(0)`, return the result
(`V = Unit` for `void`). The returned `Bool` is `DETAIL_HNG_DT_invoked` when the
statements are left. -/
def DETAIL_HNG_DT_END_TRY_STATEMENTS {S V : Type} (mode : Nat)
    (DETAIL_HNG_DT_finally : Block S Unit) (DETAIL_HNG_DT_try_fn : Block S V)
    (DETAIL_HNG_DT_invoked : Bool) (s : S) : Outcome V × Bool × S :=
  match DETAIL_HNG_DT_try_fn s with
  | (.thrown e, s1) => (.thrown e, DETAIL_HNG_DT_invoked, s1)
  | (.returned DETAIL_HNG_DT_result, s1) =>
    match DETAIL_HNG_DT_END_INVOKE_FINALLY none mode DETAIL_HNG_DT_finally s1 with
    | (.thrown e, s2) => (.thrown e, true, s2)
    | (.returned _, s2) => (.returned DETAIL_HNG_DT_result, true, s2)

/-- The macro `DETAIL_HNG_DT_DEFER_FINALLY(mode) F HNG_DT_TRY P HNG_DT_END`: the
immediately invoked lambda with its locals `DETAIL_HNG_DT_mode`, `DETAIL_HNG_DT_invoked`,
the `try` around `DETAIL_HNG_DT_END_TRY_STATEMENTS` and the `catch(...)` handler of
`HNG_DT_END`. -/
def DETAIL_HNG_DT_DEFER_FINALLY {S V : Type} (mode : Nat)
    (DETAIL_HNG_DT_finally : Block S Unit) (DETAIL_HNG_DT_try_fn : Block S V) :
    Block S V := fun s =>
  match DETAIL_HNG_DT_END_TRY_STATEMENTS mode DETAIL_HNG_DT_finally DETAIL_HNG_DT_try_fn
      false s with
  | (.returned v, _, s1) => (.returned v, s1)
  | (.thrown e, DETAIL_HNG_DT_invoked, s1) =>
    if !DETAIL_HNG_DT_invoked then
      match DETAIL_HNG_DT_END_INVOKE_FINALLY (some e) mode DETAIL_HNG_DT_finally s1 with
      | (.thrown e1, s2) => (.thrown e1, s2)
      | (.returned _, s2) => (.thrown e, s2)
    else (.thrown e, s1)

/-- The macro `HNG_DT_DEFER_FINALLY` (policy discard). -/
def HNG_DT_DEFER_FINALLY {S V : Type} (finally_block : Block S Unit)
    (try_block : Block S V) : Block S V :=
  DETAIL_HNG_DT_DEFER_FINALLY 0 finally_block try_block

/-- The macro `HNG_DT_DEFER_FINALLY_PRESERVE` (policy preserve). -/
def HNG_DT_DEFER_FINALLY_PRESERVE {S V : Type} (finally_block : Block S Unit)
    (try_block : Block S V) : Block S V :=
  DETAIL_HNG_DT_DEFER_FINALLY 1 finally_block try_block

/-! ## Result types of the protected block -/

/-- The kind of `DETAIL_HNG_DT_try_fn_result_t`, which is
`decltype(::std::move(DETAIL_HNG_DT_try_fn)())`: `void`, an lvalue reference `T&`, a
non-reference type `T`, or an rvalue reference `T&&`. -/
inductive ResultType where
  | void
  | lvalue_reference
  | value
  | rvalue_reference
  deriving DecidableEq

namespace ResultType

/-- What the call `::std::move(DETAIL_HNG_DT_try_fn)()` yields: nothing, a reference (a
name `L` of a caller-owned object), a prvalue of `T`, or a reference again. -/
def Call (L T : Type) : ResultType → Type
  | .void => Unit
  | .lvalue_reference => L
  | .value => T
  | .rvalue_reference => L

/-- The `decltype(auto)` return type of the lambda of `DETAIL_HNG_DT_DEFER_FINALLY`:
`void`, `T&`, `T`, and `T` again (`std::decay_t<T&&>`). -/
def Return (L T : Type) : ResultType → Type
  | .void => Unit
  | .lvalue_reference => L
  | .value => T
  | .rvalue_reference => T

/-- The return type of `dt_invoke`: `int` for a callable returning `void`, otherwise the
`decltype(auto)` of the call. -/
def Invoke (L T : Type) : ResultType → Type
  | .void => Int
  | .lvalue_reference => L
  | .value => T
  | .rvalue_reference => L

/-- The type of the local `DETAIL_HNG_DT_result` in the fallback: the
`std::conditional_t` that is `int` for `void`, the reference type for an lvalue
reference, and `std::decay_t` of the result type otherwise. -/
def Local (L T : Type) : ResultType → Type
  | .void => Int
  | .lvalue_reference => L
  | .value => T
  | .rvalue_reference => T

end ResultType

/-- The caller-owned objects of type `T` that a reference `L` can name in the captured
state `S`, and the state `moved_from` in which the move constructor of `T` leaves its
source (the new object has the value the source had). -/
structure Objects (S L T : Type) where
  load : S → L → T
  store : S → L → T → S
  moved_from : T → T

/-- Move construction of a new `T` from the caller-owned object `ref`: the new object
gets the value, the source is left moved-from. -/
def Objects.move_construct {S L T : Type} (mem : Objects S L T) (ref : L) (s : S) :
    T × S :=
  (mem.load s ref, mem.store s ref (mem.moved_from (mem.load s ref)))

/-- The call of the protected block together with the declaration of
`DETAIL_HNG_DT_result` in the three C++17 branches of `DETAIL_HNG_DT_END_TRY_STATEMENTS`:
the `void` branch declares nothing; the lvalue-reference branch
`DETAIL_HNG_DT_try_fn_result_t DETAIL_HNG_DT_result = ...` binds the reference; the last
branch `::std::decay_t<DETAIL_HNG_DT_try_fn_result_t> DETAIL_HNG_DT_result = ...` is the
returned prvalue itself, and for a call yielding `T&&` it move-constructs the local from
the referenced object. -/
def DETAIL_HNG_DT_result_CPP17 {S L T : Type} (mem : Objects S L T) (R : ResultType)
    (DETAIL_HNG_DT_try_fn : Block S (R.Call L T)) : Block S (R.Return L T) :=
  match R, DETAIL_HNG_DT_try_fn with
  | .void, try_fn => try_fn
  | .lvalue_reference, try_fn => try_fn
  | .value, try_fn => try_fn
  | .rvalue_reference, try_fn => fun s =>
    match try_fn s with
    | (.returned ref, s1) =>
      match mem.move_construct ref s1 with
      | (DETAIL_HNG_DT_result, s2) => (.returned DETAIL_HNG_DT_result, s2)
    | (.thrown e, s1) => (.thrown e, s1)

/-- The C++17 version of `DETAIL_HNG_DT_END_TRY_STATEMENTS` (`if constexpr` on the result
type) for a protected block of result type `R`. -/
def DETAIL_HNG_DT_END_TRY_STATEMENTS_CPP17 {S L T : Type} (mem : Objects S L T)
    (R : ResultType) (mode : Nat) (DETAIL_HNG_DT_finally : Block S Unit)
    (DETAIL_HNG_DT_try_fn : Block S (R.Call L T)) (DETAIL_HNG_DT_invoked : Bool) (s : S) :
    Outcome (R.Return L T) × Bool × S :=
  DETAIL_HNG_DT_END_TRY_STATEMENTS mode DETAIL_HNG_DT_finally
    (DETAIL_HNG_DT_result_CPP17 mem R DETAIL_HNG_DT_try_fn) DETAIL_HNG_DT_invoked s

/-- The overloads of `hng::detail::defer::dt_invoke`: for a callable returning `void`,
call it and return `0`; otherwise return what the call yields. -/
def detail.defer.dt_invoke {S L T : Type} (R : ResultType) (f : Block S (R.Call L T)) :
    Block S (R.Invoke L T) :=
  match R, f with
  | .void, f => fun s =>
    match f s with
    | (.returned _, s1) => (.returned (0 : Int), s1)
    | (.thrown e, s1) => (.thrown e, s1)
  | .lvalue_reference, f => f
  | .value, f => f
  | .rvalue_reference, f => f

/-- The overloads of `hng::detail::defer::dt_return_forward<T>`: for an lvalue reference
`T` the first overload returns the reference; otherwise the second overload returns
`T(std::move(value))` as `std::remove_reference_t<T>`, which is `void(...)` for `void` and
a `T` moved out of the local otherwise. -/
def detail.defer.dt_return_forward {L T : Type} (R : ResultType) (value : R.Local L T) :
    R.Return L T :=
  match R, value with
  | .lvalue_reference, value => value
  | .void, _ => ()
  | .value, value => value
  | .rvalue_reference, value => value

/-- The initialization of the fallback local `DETAIL_HNG_DT_result` from what `dt_invoke`
returned: an `int` from the `int`, a bound reference, the prvalue itself, or a `T`
move-constructed from the object the `T&&` refers to. -/
def DETAIL_HNG_DT_result_FALLBACK {S L T : Type} (mem : Objects S L T) (R : ResultType)
    (invoked_value : R.Invoke L T) (s : S) : R.Local L T × S :=
  match R, invoked_value with
  | .void, n => (n, s)
  | .lvalue_reference, ref => (ref, s)
  | .value, v => (v, s)
  | .rvalue_reference, ref => mem.move_construct ref s

/-- The fallback version of `DETAIL_HNG_DT_END_TRY_STATEMENTS` (without `if constexpr`),
built on `dt_invoke` and `dt_return_forward`. -/
def DETAIL_HNG_DT_END_TRY_STATEMENTS_FALLBACK {S L T : Type} (mem : Objects S L T)
    (R : ResultType) (mode : Nat) (DETAIL_HNG_DT_finally : Block S Unit)
    (DETAIL_HNG_DT_try_fn : Block S (R.Call L T)) (DETAIL_HNG_DT_invoked : Bool) (s : S) :
    Outcome (R.Return L T) × Bool × S :=
  match detail.defer.dt_invoke R DETAIL_HNG_DT_try_fn s with
  | (.thrown e, s1) => (.thrown e, DETAIL_HNG_DT_invoked, s1)
  | (.returned invoked_value, s1) =>
    match DETAIL_HNG_DT_result_FALLBACK mem R invoked_value s1 with
    | (DETAIL_HNG_DT_result, s2) =>
      match DETAIL_HNG_DT_END_INVOKE_FINALLY none mode DETAIL_HNG_DT_finally s2 with
      | (.thrown e, s3) => (.thrown e, true, s3)
      | (.returned _, s3) =>
        (.returned (detail.defer.dt_return_forward R DETAIL_HNG_DT_result), true, s3)

/-- The macro `HNG_DT_END` around given try statements: the `try` that runs them with
`DETAIL_HNG_DT_invoked` initially `0`, and the handler
`catch(...){ if(!DETAIL_HNG_DT_invoked){ DETAIL_HNG_DT_END_INVOKE_FINALLY(1); } throw; }`. -/
def HNG_DT_END {S V : Type} (mode : Nat) (DETAIL_HNG_DT_finally : Block S Unit)
    (try_statements : Bool → S → Outcome V × Bool × S) : Block S V := fun s =>
  match try_statements false s with
  | (.returned v, _, s1) => (.returned v, s1)
  | (.thrown e, DETAIL_HNG_DT_invoked, s1) =>
    if !DETAIL_HNG_DT_invoked then
      match DETAIL_HNG_DT_END_INVOKE_FINALLY (some e) mode DETAIL_HNG_DT_finally s1 with
      | (.thrown e1, s2) => (.thrown e1, s2)
      | (.returned _, s2) => (.thrown e, s2)
    else (.thrown e, s1)

/-- The guarded block `DETAIL_HNG_DT_DEFER_FINALLY(mode) F HNG_DT_TRY P HNG_DT_END`
compiled with the C++17 version of the try statements, for a protected block of result
type `R`. -/
def DETAIL_HNG_DT_DEFER_FINALLY_CPP17 {S L T : Type} (mem : Objects S L T)
    (R : ResultType) (mode : Nat) (DETAIL_HNG_DT_finally : Block S Unit)
    (DETAIL_HNG_DT_try_fn : Block S (R.Call L T)) : Block S (R.Return L T) :=
  HNG_DT_END mode DETAIL_HNG_DT_finally
    (DETAIL_HNG_DT_END_TRY_STATEMENTS_CPP17 mem R mode DETAIL_HNG_DT_finally
      DETAIL_HNG_DT_try_fn)

/-- The guarded block compiled with the fallback version of the try statements. -/
def DETAIL_HNG_DT_DEFER_FINALLY_FALLBACK {S L T : Type} (mem : Objects S L T)
    (R : ResultType) (mode : Nat) (DETAIL_HNG_DT_finally : Block S Unit)
    (DETAIL_HNG_DT_try_fn : Block S (R.Call L T)) : Block S (R.Return L T) :=
  HNG_DT_END mode DETAIL_HNG_DT_finally
    (DETAIL_HNG_DT_END_TRY_STATEMENTS_FALLBACK mem R mode DETAIL_HNG_DT_finally
      DETAIL_HNG_DT_try_fn)

/-! ## Finalizers that consult the exception in flight -/

/-- A lambda whose body may consult the exception that is being handled when it is called
(`std::current_exception()`, `throw;`, `std::throw_with_nested`): the block it behaves
as, for each value of `std::current_exception()` (`none` when nothing is being
handled). -/
abbrev HandlerBlock (S V : Type) := Option Exn → Block S V

/-- The guarded block `DETAIL_HNG_DT_DEFER_FINALLY(mode) F HNG_DT_TRY P HNG_DT_END` for a
finalizer that may consult the exception in flight. In the try statements the finalizer
is called outside the handler, where the exception in flight is the one of the
enclosing code, `outer`. In the handler `catch(...)` of `HNG_DT_END` it is called by
`DETAIL_HNG_DT_END_INVOKE_FINALLY(1)`, under either mode, while the caught exception is
being handled. -/
def DETAIL_HNG_DT_DEFER_FINALLY_IN_FLIGHT {S V : Type} (outer : Option Exn) (mode : Nat)
    (DETAIL_HNG_DT_finally : HandlerBlock S Unit) (DETAIL_HNG_DT_try_fn : Block S V) :
    Block S V := fun s =>
  match DETAIL_HNG_DT_END_TRY_STATEMENTS mode (DETAIL_HNG_DT_finally outer)
      DETAIL_HNG_DT_try_fn false s with
  | (.returned v, _, s1) => (.returned v, s1)
  | (.thrown e, DETAIL_HNG_DT_invoked, s1) =>
    if !DETAIL_HNG_DT_invoked then
      match DETAIL_HNG_DT_END_INVOKE_FINALLY (some e) mode (DETAIL_HNG_DT_finally (some e))
          s1 with
      | (.thrown e1, s2) => (.thrown e1, s2)
      | (.returned _, s2) => (.thrown e, s2)
    else (.thrown e, s1)

/-! ## Statements of the enclosing code -/

/-- A statement that updates the captured state and neither returns a value nor throws,
such as `x = 0;`. -/
def stmt {S : Type} (f : S → S) : Block S Unit := fun s => (.returned (), f s)

/-- The statement `return v;` where `v` is computed from the captured state. -/
def return_ {S V : Type} (v : S → V) : Block S V := fun s => (.returned (v s), s)

/-- The statement `throw e;`. -/
def throw_ {S V : Type} (e : Exn) : Block S V := fun s => (.thrown e, s)

/-- Two statements in sequence, `a; b`: `b` is not reached when `a` throws. -/
def seq {S V : Type} (a : Block S Unit) (b : Block S V) : Block S V := fun s =>
  match a s with
  | (.returned _, s1) => b s1
  | (.thrown e, s1) => (.thrown e, s1)

/-- The assignment `y = rhs;` to a caller variable written by `set_y`: the right operand
is evaluated first, and the store happens only when it returned. -/
def assign {S V : Type} (set_y : S → V → S) (rhs : Block S V) : Block S Unit := fun s =>
  match rhs s with
  | (.returned v, s1) => (.returned (), set_y s1 v)
  | (.thrown e, s1) => (.thrown e, s1)

/-! ## Observing invocations -/

/-- Which block was invoked. -/
inductive Event where
  | try_fn
  | finally_fn
  deriving DecidableEq

/-- The block `B` over a state extended by a log: each invocation of the block appends
`ev` to the log when the block is left (by return or by throw); the outcome and the
effect on `S` are those of `B`. -/
def traced {S V Ev : Type} (ev : Ev) (B : Block S V) : Block (S × List Ev) V :=
  fun sl =>
    match B sl.1 with
    | (o, s1) => (o, (s1, sl.2 ++ [ev]))

/-- The objects `mem` over the state extended by a log, which they leave alone. -/
def Objects.with_log {S L T : Type} (Ev : Type) (mem : Objects S L T) :
    Objects (S × List Ev) L T where
  load := fun sl ref => mem.load sl.1 ref
  store := fun sl ref v => (mem.store sl.1 ref v, sl.2)
  moved_from := mem.moved_from

/-! ## The scope guard `hng::defer` -/

/-- How statements inside a function body are left: control falls through to the next
statement, a `return v;` is executed, an exception propagates, or `std::terminate()` is
called. -/
inductive Completion (V : Type) where
  | normal
  | returned (v : V)
  | thrown (e : Exn)
  | terminated

/-- Statements of a function body with result type `V` over the state `S`. -/
abbrev Code (S V : Type) := S → Completion V × S

/-- The call `std::rethrow_if_nested(e)`. For an object whose type has a
`std::nested_exception` base it calls `rethrow_nested()`, which rethrows the exception
`nested_ptr()` points to and calls `std::terminate()` when that pointer is null; for any
other object the call returns. -/
def Exn.rethrow_if_nested : Exn → Completion Unit
  | .runtime_error _ => .normal
  | .defer_exception _ => .normal
  | .nested_defer_exception _ (some nested) => .thrown nested
  | .nested_defer_exception _ none => .terminated

/-- A callable without arguments and result, such as a lambda `[&]{ ... }`: its body and
whether its call operator is declared `noexcept`. -/
structure Callable (S : Type) where
  body : Block S Unit
  is_noexcept : Bool

/-- The lambda `[&]()noexcept{ block }`. -/
def noexcept_lambda {S : Type} (block : Block S Unit) : Callable S := ⟨block, true⟩

/-- The lambda `[&]{ block }` without exception specification. -/
def lambda {S : Type} (block : Block S Unit) : Callable S := ⟨block, false⟩

/-- The call `callable()`: an exception that leaves a `noexcept` call operator calls
`std::terminate()`. -/
def Callable.call {S : Type} (callable : Callable S) : Code S Unit := fun s =>
  match callable.body s with
  | (.returned _, s1) => (.normal, s1)
  | (.thrown e, s1) => if callable.is_noexcept then (.terminated, s1) else (.thrown e, s1)

/-- The callable with a traced body. -/
def Callable.traced {S Ev : Type} (ev : Ev) (callable : Callable S) :
    Callable (S × List Ev) :=
  ⟨hng.traced ev callable.body, callable.is_noexcept⟩

/-- The class template `hng::defer<Callable>` with its member `m_callable`. -/
structure defer (S : Type) where
  m_callable : Callable S

namespace defer

/-- The constructor `explicit defer(Callable&& callable)`, which moves the callable into
`m_callable`. -/
def of_rvalue {S : Type} (callable : Callable S) : defer S := ⟨callable⟩

/-- The constructor `explicit defer(Callable const& callable)`, which copies the callable
into `m_callable`. -/
def of_const_ref {S : Type} (callable : Callable S) : defer S := ⟨callable⟩

/-- The destructor `~defer() noexcept { std::move(m_callable)(); }`: an exception that
leaves the call leaves a `noexcept` function, which calls `std::terminate()`. -/
def destructor {S : Type} (guard : defer S) : Code S Unit := fun s =>
  match guard.m_callable.call s with
  | (.normal, s1) => (.normal, s1)
  | (.returned _, s1) => (.normal, s1)
  | (.thrown _, s1) => (.terminated, s1)
  | (.terminated, s1) => (.terminated, s1)

end defer

/-- A statement of a compound statement: other code, or the declaration of a local
`hng::defer` object. -/
inductive Statement (S V : Type) where
  | code (c : Code S V)
  | declare_defer (guard : defer S)

/-- The compound statement `{ statements }`. A declared `hng::defer` object lives until
the compound statement is left (by falling through, `return` or an exception), when its
destructor runs; objects declared later are destroyed earlier. Nothing more runs once
`std::terminate()` was called. -/
def scope {S V : Type} : List (Statement S V) → Code S V
  | [] => fun s => (.normal, s)
  | .code c :: rest => fun s =>
    match c s with
    | (.normal, s1) => scope rest s1
    | (exit, s1) => (exit, s1)
  | .declare_defer guard :: rest => fun s =>
    match scope rest s with
    | (.terminated, s1) => (.terminated, s1)
    | (exit, s1) =>
      match guard.destructor s1 with
      | (.terminated, s2) => (.terminated, s2)
      | (_, s2) => (exit, s2)

/-- The code `c` over a state extended by a log: `ev` is appended when `c` is left. -/
def traced_code {S V Ev : Type} (ev : Ev) (c : Code S V) : Code (S × List Ev) V :=
  fun sl =>
    match c sl.1 with
    | (exit, s1) => (exit, (s1, sl.2 ++ [ev]))

/-- The macros `HNG_DEFER_NAMED_BEGIN(name) { block } HNG_DEFER_NAMED_END(name);`: the
lambda `auto HNG_DEFER_fn_name=[&]()noexcept{ block };` and the guard
`::hng::defer<decltype(HNG_DEFER_fn_name)> HNG_DEFER_var_name(::std::move(HNG_DEFER_fn_name));`. -/
def HNG_DEFER_NAMED_BEGIN {S V : Type} (block : Block S Unit) : Statement S V :=
  .declare_defer (defer.of_rvalue (noexcept_lambda block))

/-- The macro `HNG_DEFER_BLOCK(...)`, which expands to
`HNG_DEFER_NAMED_BEGIN(line){__VA_ARGS__}HNG_DEFER_NAMED_END(line)`. -/
def HNG_DEFER_BLOCK {S V : Type} (block : Block S Unit) : Statement S V :=
  HNG_DEFER_NAMED_BEGIN block

/-- The macro `HNG_DEFER_CALLABLE_VARIABLE(callable_variable)`:
`hng::defer<decltype(callable_variable)> const HNG_DEFER_var_line(::std::move(callable_variable));`. -/
def HNG_DEFER_CALLABLE_VARIABLE {S V : Type} (callable_variable : Callable S) :
    Statement S V :=
  .declare_defer (defer.of_rvalue callable_variable)

/-- The macros `HNG_DEFER_BEGIN { block } HNG_DEFER_END;` (C++17):
`auto const HNG_DEFER_var_line=::hng::defer([&]()noexcept{ block });`. -/
def HNG_DEFER_BEGIN {S V : Type} (block : Block S Unit) : Statement S V :=
  .declare_defer (defer.of_rvalue (noexcept_lambda block))

/-! ## The tests of `src/main.cpp` (namespace `hng::defer_tests`) -/

namespace defer_tests

/-- Locals `x`, `xd` of the test "try block success". -/
structure SuccessLocals where
  x : Int
  xd : Int
  deriving DecidableEq

/-- The defer block `xd = x; x = 0;` of "try block success". -/
def success_finally : Block SuccessLocals Unit :=
  seq (stmt fun l => ⟨l.x, l.x⟩) (stmt fun l => ⟨0, l.xd⟩)

/-- The try block `x = 2;` of "try block success". -/
def success_try : Block SuccessLocals Unit :=
  stmt fun l => ⟨2, l.xd⟩

/-- The defer block `x = 0;` over the single local `x` (tests "try block exception",
"try block return", "PRESERVE - try block exception"). -/
def x_reset : Block Int Unit := stmt fun _ => 0

/-- The try block `throw std::runtime_error("test");`. -/
def throw_test {S V : Type} : Block S V := throw_ (.runtime_error "test")

/-- The try block `return 2L;` of "try block return". -/
def return_2 : Block Int Int := return_ fun _ => 2

/-- The try block `x = 2;` of "PRESERVE - defer block exception". -/
def x_set_2 : Block Int Unit := stmt fun _ => 2

/-- Locals `x`, `y` of the test "expression return value". -/
structure ExprLocals where
  x : Int
  y : Int
  deriving DecidableEq

/-- The store into the local `y` of "expression return value". -/
def ExprLocals.set_y (l : ExprLocals) (v : Int) : ExprLocals := ⟨l.x, v⟩

/-- The defer block `x = y;` of "expression return value". -/
def expr_finally : Block ExprLocals Unit := stmt fun l => ⟨l.y, l.y⟩

/-- The statement `y = HNG_DT_DEFER_FINALLY[&]{ x = y; } HNG_DT_TRY[&]{ return v; }
HNG_DT_END;` of "expression return value" (the test has `v = 2`). -/
def expr_statement (v : Int) : Block ExprLocals Unit :=
  assign ExprLocals.set_y (HNG_DT_DEFER_FINALLY expr_finally (return_ fun _ => v))

/-- The statement `a.push_back(n);` on the local vector `a` of "nested defer". -/
def push_back (n : Int) : Block (List Int) Unit := stmt fun a => a ++ [n]

/-- The statement `HNG_DT_DEFER_FINALLY[&]{ xd = x; x = 0; } HNG_DT_TRY[&]{ x = 2; }
HNG_DT_END;` of "try block success". -/
def success_statement : Block SuccessLocals Unit :=
  HNG_DT_DEFER_FINALLY success_finally success_try

/-- The body of "nested defer" up to and including `a.push_back(4);`. -/
def nested_defer : Block (List Int) Unit :=
  seq
    (HNG_DT_DEFER_FINALLY
      (HNG_DT_DEFER_FINALLY (push_back 3) (push_back 2))
      (push_back 1))
    (push_back 4)

/-- The try block `throw std::runtime_error("e1");` and the defer block
`throw std::runtime_error("e2");` of "PRESERVE - try block exception and defer block
exception", which has no locals. -/
def throw_e1 : Block Unit Unit := throw_ (.runtime_error "e1")

/-- See `throw_e1`. -/
def throw_e2 : Block Unit Unit := throw_ (.runtime_error "e2")

/-- Locals of the tests "expression return value by move" and "... by reference": the
`std::unique_ptr<int> x` (`none` is the empty pointer, `some n` owns an `int` of value
`n`) and `int z`. -/
structure PtrLocals where
  x : Option Int
  z : Int
  deriving DecidableEq

/-- Names of the `std::unique_ptr<int>` objects of these tests. -/
inductive PtrName where
  | x
  deriving DecidableEq

/-- The `std::unique_ptr<int>` objects among `PtrLocals`; a moved-from `unique_ptr` is
empty. -/
def ptr_objects : Objects PtrLocals PtrName (Option Int) where
  load := fun l _ => l.x
  store := fun l _ v => ⟨v, l.z⟩
  moved_from := fun _ => none

/-- The defer block `z = 2;` of these tests. -/
def z_set_2 : Block PtrLocals Unit := stmt fun l => ⟨l.x, 2⟩

/-- The try block `return (x);` with result type `std::unique_ptr<int>&`, and the try
block `return std::move(x);` with result type `std::unique_ptr<int>&&`: both yield a
reference to `x`. -/
def return_ref_x : Block PtrLocals PtrName := return_ fun _ => PtrName.x

/-- The guarded block of "expression return value by reference". -/
def by_reference : Block PtrLocals PtrName :=
  DETAIL_HNG_DT_DEFER_FINALLY_CPP17 ptr_objects ResultType.lvalue_reference 0 z_set_2
    return_ref_x

/-- The guarded block of "expression return value by move". -/
def by_move : Block PtrLocals (Option Int) :=
  DETAIL_HNG_DT_DEFER_FINALLY_CPP17 ptr_objects ResultType.rvalue_reference 0 z_set_2
    return_ref_x

/-- The block `delete raw_ptr; raw_ptr = nullptr;` of the `hng::defer` tests, over the
local `int* raw_ptr` (`none` is `nullptr`, `some n` points to a live `int` of value
`n`). -/
def delete_raw_ptr : Block (Option Int) Unit := stmt fun _ => none

/-- The statement `if (!(raw_ptr && *raw_ptr == n)) return false;`. -/
def check_raw_ptr (n : Int) : Code (Option Int) Bool := fun raw_ptr =>
  if raw_ptr = some n then (.normal, raw_ptr) else (.returned false, raw_ptr)

/-- The statement `return raw_ptr == nullptr;`. -/
def return_raw_ptr_is_null : Code (Option Int) Bool := fun raw_ptr =>
  (.returned (raw_ptr == none), raw_ptr)

/-- The body of a `hng::defer` test after `int* raw_ptr = new int(...);`: the inner
compound statement with the guard declaration and the check against `n`, then
`return raw_ptr == nullptr;`. -/
def defer_test (guard : Statement (Option Int) Bool) (n : Int) : Code (Option Int) Bool :=
  scope [.code (scope [guard, .code (check_raw_ptr n)]), .code return_raw_ptr_is_null]

/-- The guard declaration of "defer class - basic":
`hng::defer<decltype(my_callable)> const my_defer(my_callable);` with the `const` lambda
`my_callable = [&]()noexcept{ delete raw_ptr; raw_ptr = nullptr; }`. -/
def basic_guard : Statement (Option Int) Bool :=
  .declare_defer (defer.of_const_ref (noexcept_lambda delete_raw_ptr))

/-- The guard declaration of "defer class - type argument inference":
`auto const my_defer = hng::defer([&]()noexcept{ ... });`. -/
def inference_guard : Statement (Option Int) Bool :=
  .declare_defer (defer.of_rvalue (noexcept_lambda delete_raw_ptr))

end defer_tests

/-! ## Further blocks over the locals of the tests -/

namespace scenarios

/-- A single local `int x` as the one caller-owned object; moving from an `int` leaves it
as it is. -/
def x_object : Objects Int Unit Int where
  load := fun x _ => x
  store := fun _ _ v => v
  moved_from := fun v => v

/-- The try block `return x;` with result type `int`: the content of `x` by value. -/
def return_x : Block Int Int := return_ fun x => x

/-- The defer block `z = x ? 1 : 0;` over `defer_tests.PtrLocals`, which records whether
the `std::unique_ptr<int> x` still owns something. -/
def z_records_x : Block defer_tests.PtrLocals Unit :=
  stmt fun l => ⟨l.x, if l.x.isSome then 1 else 0⟩

/-- The defer block `z = x ? 1 : 0; throw std::runtime_error("test");`. -/
def z_records_x_then_throw : Block defer_tests.PtrLocals Unit :=
  seq z_records_x defer_tests.throw_test

/-- The defer block `if (std::current_exception()) throw;`, which rethrows the exception
that is being handled when it is called and does nothing otherwise. -/
def rethrow_in_flight {S : Type} : HandlerBlock S Unit := fun current_exception =>
  match current_exception with
  | some e => throw_ e
  | none => stmt fun s => s

end scenarios

end hng

namespace hng

/-! ## The four outcome combinations of one guarded block -/

section cases
variable {S V : Type}

theorem guarded_returned_returned (mode : Nat) (F : Block S Unit) (P : Block S V)
    (s s1 s2 : S) (v : V) (hP : P s = (.returned v, s1))
    (hF : F s1 = (.returned (), s2)) :
    DETAIL_HNG_DT_DEFER_FINALLY mode F P s = (.returned v, s2) := by
  simp [DETAIL_HNG_DT_DEFER_FINALLY, DETAIL_HNG_DT_END_TRY_STATEMENTS,
    DETAIL_HNG_DT_END_INVOKE_FINALLY, hP, hF]

theorem guarded_returned_thrown (mode : Nat) (F : Block S Unit) (P : Block S V)
    (s s1 s2 : S) (v : V) (e_f : Exn) (hP : P s = (.returned v, s1))
    (hF : F s1 = (.thrown e_f, s2)) :
    DETAIL_HNG_DT_DEFER_FINALLY mode F P s = (.thrown e_f, s2) := by
  simp [DETAIL_HNG_DT_DEFER_FINALLY, DETAIL_HNG_DT_END_TRY_STATEMENTS,
    DETAIL_HNG_DT_END_INVOKE_FINALLY, hP, hF]

theorem guarded_thrown_returned (mode : Nat) (F : Block S Unit) (P : Block S V)
    (s s1 s2 : S) (e_p : Exn) (hP : P s = (.thrown e_p, s1))
    (hF : F s1 = (.returned (), s2)) :
    DETAIL_HNG_DT_DEFER_FINALLY mode F P s = (.thrown e_p, s2) := by
  by_cases hm : 1 = mode <;>
  simp [DETAIL_HNG_DT_DEFER_FINALLY, DETAIL_HNG_DT_END_TRY_STATEMENTS,
    DETAIL_HNG_DT_END_INVOKE_FINALLY, hP, hF, hm]

theorem guarded_thrown_thrown_discard (mode : Nat) (hm : mode ≠ 1) (F : Block S Unit)
    (P : Block S V) (s s1 s2 : S) (e_p e_f : Exn) (hP : P s = (.thrown e_p, s1))
    (hF : F s1 = (.thrown e_f, s2)) :
    DETAIL_HNG_DT_DEFER_FINALLY mode F P s = (.thrown e_f, s2) := by
  have hm1 : ¬ 1 = mode := fun h => hm h.symm
  simp [DETAIL_HNG_DT_DEFER_FINALLY, DETAIL_HNG_DT_END_TRY_STATEMENTS,
    DETAIL_HNG_DT_END_INVOKE_FINALLY, hP, hF, hm1]

theorem guarded_thrown_thrown_preserve (F : Block S Unit)
    (P : Block S V) (s s1 s2 : S) (e_p e_f : Exn) (hP : P s = (.thrown e_p, s1))
    (hF : F s1 = (.thrown e_f, s2)) :
    DETAIL_HNG_DT_DEFER_FINALLY 1 F P s =
      (.thrown (.nested_defer_exception
        (defer_exception.of_exception_ptr (some e_f)) (some e_p)), s2) := by
  simp [DETAIL_HNG_DT_DEFER_FINALLY, DETAIL_HNG_DT_END_TRY_STATEMENTS,
    DETAIL_HNG_DT_END_INVOKE_FINALLY, throw_with_nested, hP, hF]

end cases

/-! ## Contract of the guarded block -/

/-- C1: when the protected block completes with a value `v` and the finalizer completes
without failure, the guarded block returns exactly `v` (and the state the finalizer left),
under the discard policy and under the preserve policy. -/
theorem guarded_returns_try_value {S V : Type} (F : Block S Unit) (P : Block S V)
    (s s1 s2 : S) (v : V) (hP : P s = (.returned v, s1))
    (hF : F s1 = (.returned (), s2)) :
    HNG_DT_DEFER_FINALLY F P s = (.returned v, s2) ∧
    HNG_DT_DEFER_FINALLY_PRESERVE F P s = (.returned v, s2) :=
  ⟨guarded_returned_returned 0 F P s s1 s2 v hP hF,
   guarded_returned_returned 1 F P s s1 s2 v hP hF⟩

/-- Test "try block return": from `x = 1`, the guarded block yields `2` and leaves
`x = 0`. -/
theorem guarded_returns_try_value_witness :
    defer_tests.return_2 1 = (.returned 2, 1) ∧
    defer_tests.x_reset 1 = (.returned (), 0) ∧
    HNG_DT_DEFER_FINALLY defer_tests.x_reset defer_tests.return_2 1 = (.returned 2, 0) ∧
    HNG_DT_DEFER_FINALLY_PRESERVE defer_tests.x_reset defer_tests.return_2 1
      = (.returned 2, 0) :=
  ⟨rfl, rfl,
   guarded_returns_try_value defer_tests.x_reset defer_tests.return_2 1 1 0 2 rfl rfl⟩

/-- C2: when the protected block fails with `e_p` and the finalizer fails with `e_f`,
the preserve policy raises an object `dex` that a handler for `hng::defer_exception`
accepts, whose `exception_ptr()` is exactly `e_f`, and whose nested exception is present
and is exactly `e_p`; so the unwrapped primary message is that of `e_f` and the unwrapped
caused-by message is that of `e_p`. -/
theorem preserve_raises_chained_failure {S V : Type} (F : Block S Unit) (P : Block S V)
    (s s1 s2 : S) (e_p e_f : Exn) (hP : P s = (.thrown e_p, s1))
    (hF : F s1 = (.thrown e_f, s2)) :
    ∃ (dex : Exn) (base : defer_exception Exn),
      HNG_DT_DEFER_FINALLY_PRESERVE F P s = (.thrown dex, s2) ∧
      dex.as_defer_exception = some base ∧
      base.exception_ptr = some e_f ∧
      dex.rethrow_if_nested = .thrown e_p ∧
      base.exception_ptr.map Exn.what = some e_f.what ∧
      ∃ nex : Exn, dex.rethrow_if_nested = .thrown nex ∧ nex.what = e_p.what :=
  ⟨.nested_defer_exception (defer_exception.of_exception_ptr (some e_f)) (some e_p),
   defer_exception.of_exception_ptr (some e_f),
   guarded_thrown_thrown_preserve F P s s1 s2 e_p e_f hP hF, rfl, rfl, rfl, rfl,
   e_p, rfl, rfl⟩

/-- Test "PRESERVE - try block exception and defer block exception": the try block throws
"e1", the defer block throws "e2"; the primary message is "e2", the nested one "e1". -/
theorem preserve_raises_chained_failure_witness :
    defer_tests.throw_e1 () = (.thrown (.runtime_error "e1"), ()) ∧
    defer_tests.throw_e2 () = (.thrown (.runtime_error "e2"), ()) ∧
    ∃ (dex : Exn) (base : defer_exception Exn),
      HNG_DT_DEFER_FINALLY_PRESERVE defer_tests.throw_e2 defer_tests.throw_e1 ()
        = (.thrown dex, ()) ∧
      dex.as_defer_exception = some base ∧
      base.exception_ptr = some (.runtime_error "e2") ∧
      dex.rethrow_if_nested = .thrown (.runtime_error "e1") ∧
      base.exception_ptr.map Exn.what = some "e2" ∧
      ∃ nex : Exn, dex.rethrow_if_nested = .thrown nex ∧ nex.what = "e1" :=
  ⟨rfl, rfl,
   preserve_raises_chained_failure defer_tests.throw_e2 defer_tests.throw_e1 () () ()
     (.runtime_error "e1") (.runtime_error "e2") rfl rfl⟩

/-- The guarded block for a finalizer that does not consult the exception in flight is
the guarded block over that finalizer. -/
theorem guarded_in_flight_const {S V : Type} (outer : Option Exn) (mode : Nat)
    (G : Block S Unit) (P : Block S V) :
    DETAIL_HNG_DT_DEFER_FINALLY_IN_FLIGHT outer mode (fun _ => G) P
      = DETAIL_HNG_DT_DEFER_FINALLY mode G P :=
  rfl

/-- Under discard, when the protected block throws `e_p` and the finalizer, called while
`e_p` is being handled, throws `e_f`, the guarded block throws `e_f`. -/
theorem guarded_in_flight_thrown_thrown_discard {S V : Type} (outer : Option Exn)
    (F : HandlerBlock S Unit) (P : Block S V) (s s1 s2 : S) (e_p e_f : Exn)
    (hP : P s = (.thrown e_p, s1)) (hF : F (some e_p) s1 = (.thrown e_f, s2)) :
    DETAIL_HNG_DT_DEFER_FINALLY_IN_FLIGHT outer 0 F P s = (.thrown e_f, s2) := by
  simp [DETAIL_HNG_DT_DEFER_FINALLY_IN_FLIGHT, DETAIL_HNG_DT_END_TRY_STATEMENTS,
    DETAIL_HNG_DT_END_INVOKE_FINALLY, hP, hF]

/-- The negation of C3 as stated: it is not the case that under discard, when both sides
fail, what is raised never depends on the failure of the protected block. The finalizer
runs inside the handler, so the defer block `if (std::current_exception()) throw;`
raises the failure of the protected block itself: "e1" when the try block throws "e1",
"test" when it throws "test". -/
theorem discard_counterexample :
    ¬ ∀ (F : HandlerBlock Unit Unit) (P : Block Unit Unit) (e_p e_f : Exn),
        P () = (.thrown e_p, ()) → F (some e_p) () = (.thrown e_f, ()) →
        DETAIL_HNG_DT_DEFER_FINALLY_IN_FLIGHT none 0 F P () = (.thrown e_f, ()) ∧
        ∀ (P1 : Block Unit Unit) (e_p1 : Exn), P1 () = (.thrown e_p1, ()) →
          DETAIL_HNG_DT_DEFER_FINALLY_IN_FLIGHT none 0 F P1 ()
            = DETAIL_HNG_DT_DEFER_FINALLY_IN_FLIGHT none 0 F P () := by
  intro h
  have h1 := (h scenarios.rethrow_in_flight defer_tests.throw_e1 (.runtime_error "e1")
    (.runtime_error "e1") rfl rfl).2 defer_tests.throw_test (.runtime_error "test") rfl
  rw [guarded_in_flight_thrown_thrown_discard none scenarios.rethrow_in_flight
      defer_tests.throw_e1 () () () (.runtime_error "e1") (.runtime_error "e1") rfl rfl,
    guarded_in_flight_thrown_thrown_discard none scenarios.rethrow_in_flight
      defer_tests.throw_test () () () (.runtime_error "test") (.runtime_error "test")
      rfl rfl] at h1
  simp at h1

/-- C3, amended: when the protected block fails with `e_p` and the finalizer, which runs
while `e_p` is being handled, fails with `e_f`, the discard policy raises exactly `e_f`,
not wrapped, and adds nothing of `e_p` to it: for any other failure of the protected
block under which the finalizer behaves the same, the result is the same, so `e_p` is
lost unless the finalizer itself puts it into what it raises. For a finalizer that does
not consult the exception in flight this is the guarded block `HNG_DT_DEFER_FINALLY`. -/
theorem discard_raises_finalizer_failure {S V : Type} (outer : Option Exn)
    (F : HandlerBlock S Unit) (P : Block S V) (s s1 s2 : S) (e_p e_f : Exn)
    (hP : P s = (.thrown e_p, s1)) (hF : F (some e_p) s1 = (.thrown e_f, s2)) :
    DETAIL_HNG_DT_DEFER_FINALLY_IN_FLIGHT outer 0 F P s = (.thrown e_f, s2) ∧
    (∀ (P1 : Block S V) (e_p1 : Exn), P1 s = (.thrown e_p1, s1) →
      F (some e_p1) s1 = F (some e_p) s1 →
      DETAIL_HNG_DT_DEFER_FINALLY_IN_FLIGHT outer 0 F P1 s
        = DETAIL_HNG_DT_DEFER_FINALLY_IN_FLIGHT outer 0 F P s) ∧
    ∀ G : Block S Unit,
      DETAIL_HNG_DT_DEFER_FINALLY_IN_FLIGHT outer 0 (fun _ => G) P s
        = HNG_DT_DEFER_FINALLY G P s := by
  have h := guarded_in_flight_thrown_thrown_discard outer F P s s1 s2 e_p e_f hP hF
  refine ⟨h, fun P1 e_p1 hP1 hsame => ?_, fun G => rfl⟩
  rw [h, guarded_in_flight_thrown_thrown_discard outer F P1 s s1 s2 e_p1 e_f hP1
    (by rw [hsame]; exact hF)]

/-- The try block throws "e1", the defer block throws "e2" whatever is in flight, policy
discard: "e2" is raised as it is, also when the try block throws "test" instead. -/
theorem discard_raises_finalizer_failure_witness :
    defer_tests.throw_e1 () = (.thrown (.runtime_error "e1"), ()) ∧
    defer_tests.throw_e2 () = (.thrown (.runtime_error "e2"), ()) ∧
    DETAIL_HNG_DT_DEFER_FINALLY_IN_FLIGHT none 0 (fun _ => defer_tests.throw_e2)
      defer_tests.throw_e1 () = (.thrown (.runtime_error "e2"), ()) ∧
    DETAIL_HNG_DT_DEFER_FINALLY_IN_FLIGHT none 0 (fun _ => defer_tests.throw_e2)
      (defer_tests.throw_test (V := Unit)) ()
      = DETAIL_HNG_DT_DEFER_FINALLY_IN_FLIGHT none 0 (fun _ => defer_tests.throw_e2)
          defer_tests.throw_e1 () :=
  have h := discard_raises_finalizer_failure none (fun _ => defer_tests.throw_e2)
    defer_tests.throw_e1 () () () (.runtime_error "e1") (.runtime_error "e2") rfl rfl
  ⟨rfl, rfl, h.1, h.2.1 defer_tests.throw_test (.runtime_error "test") rfl rfl⟩

/-- C4: when the protected block fails with `e_p` and the finalizer completes without
failure, the guarded block raises exactly `e_p`, not wrapped, under both policies, and the
state is the one the finalizer left (its effects are applied). -/
theorem guarded_reraises_try_failure {S V : Type} (F : Block S Unit) (P : Block S V)
    (s s1 s2 : S) (e_p : Exn) (hP : P s = (.thrown e_p, s1))
    (hF : F s1 = (.returned (), s2)) :
    HNG_DT_DEFER_FINALLY F P s = (.thrown e_p, s2) ∧
    HNG_DT_DEFER_FINALLY_PRESERVE F P s = (.thrown e_p, s2) :=
  ⟨guarded_thrown_returned 0 F P s s1 s2 e_p hP hF,
   guarded_thrown_returned 1 F P s s1 s2 e_p hP hF⟩

/-- Tests "try block exception" and "PRESERVE - try block exception": from `x = 1`, the
failure with message "test" is raised and `x == 0` afterwards. -/
theorem guarded_reraises_try_failure_witness :
    defer_tests.throw_test (V := Unit) (1 : Int) = (.thrown (.runtime_error "test"), 1) ∧
    defer_tests.x_reset 1 = (.returned (), 0) ∧
    HNG_DT_DEFER_FINALLY defer_tests.x_reset (defer_tests.throw_test (V := Unit)) 1
      = (.thrown (.runtime_error "test"), 0) ∧
    HNG_DT_DEFER_FINALLY_PRESERVE defer_tests.x_reset (defer_tests.throw_test (V := Unit)) 1
      = (.thrown (.runtime_error "test"), 0) :=
  ⟨rfl, rfl,
   guarded_reraises_try_failure defer_tests.x_reset defer_tests.throw_test 1 1 0
     (.runtime_error "test") rfl rfl⟩

/-- C5: when the protected block completes (with value `v`, `()` for a block without a
value) and the finalizer fails with `e_f`, the guarded block raises exactly `e_f`, not
wrapped, under both policies; no value is returned, the result does not depend on `v`,
and the state is the one the protected block left, as further changed by the finalizer
before it failed. -/
theorem guarded_raises_finalizer_failure {S V : Type} (F : Block S Unit) (P : Block S V)
    (s s1 s2 : S) (v : V) (e_f : Exn) (hP : P s = (.returned v, s1))
    (hF : F s1 = (.thrown e_f, s2)) :
    HNG_DT_DEFER_FINALLY F P s = (.thrown e_f, s2) ∧
    HNG_DT_DEFER_FINALLY_PRESERVE F P s = (.thrown e_f, s2) ∧
    (∀ (w : V) (t : S), HNG_DT_DEFER_FINALLY F P s ≠ (.returned w, t) ∧
      HNG_DT_DEFER_FINALLY_PRESERVE F P s ≠ (.returned w, t)) ∧
    ∀ (P1 : Block S V) (v1 : V), P1 s = (.returned v1, s1) →
      HNG_DT_DEFER_FINALLY F P1 s = HNG_DT_DEFER_FINALLY F P s ∧
      HNG_DT_DEFER_FINALLY_PRESERVE F P1 s = HNG_DT_DEFER_FINALLY_PRESERVE F P s := by
  have h0 := guarded_returned_thrown 0 F P s s1 s2 v e_f hP hF
  have h1 := guarded_returned_thrown 1 F P s s1 s2 v e_f hP hF
  refine ⟨h0, h1, fun w t => ?_, fun P1 v1 hP1 => ?_⟩
  · simp only [HNG_DT_DEFER_FINALLY, HNG_DT_DEFER_FINALLY_PRESERVE, h0, h1]
    simp
  · have k0 := guarded_returned_thrown 0 F P1 s s1 s2 v1 e_f hP1 hF
    have k1 := guarded_returned_thrown 1 F P1 s s1 s2 v1 e_f hP1 hF
    simp only [HNG_DT_DEFER_FINALLY, HNG_DT_DEFER_FINALLY_PRESERVE, h0, h1, k0, k1]
    simp

/-- Test "PRESERVE - defer block exception": from `x = 1`, the try block sets `x = 2`,
the defer block throws "test"; "test" is raised as it is and `x == 2` afterwards. -/
theorem guarded_raises_finalizer_failure_witness :
    defer_tests.x_set_2 1 = (.returned (), 2) ∧
    defer_tests.throw_test (V := Unit) (2 : Int) = (.thrown (.runtime_error "test"), 2) ∧
    HNG_DT_DEFER_FINALLY defer_tests.throw_test defer_tests.x_set_2 1
      = (.thrown (.runtime_error "test"), 2) ∧
    HNG_DT_DEFER_FINALLY_PRESERVE defer_tests.throw_test defer_tests.x_set_2 1
      = (.thrown (.runtime_error "test"), 2) :=
  have h := guarded_raises_finalizer_failure defer_tests.throw_test defer_tests.x_set_2
    1 2 2 () (.runtime_error "test") rfl rfl
  ⟨rfl, rfl, h.1, h.2.1⟩

/-! ## Order of the effects -/

/-- The state after the guarded block is the state the finalizer leaves when it is run on
the state the protected block left, whatever the two outcomes and the mode. -/
theorem guarded_state {S V : Type} (mode : Nat) (F : Block S Unit) (P : Block S V)
    (s : S) : (DETAIL_HNG_DT_DEFER_FINALLY mode F P s).2 = (F (P s).2).2 := by
  rcases hP : P s with ⟨o, s1⟩
  rcases hF : F s1 with ⟨r, s2⟩
  cases o with
  | returned v =>
    cases r with
    | returned u => rw [guarded_returned_returned mode F P s s1 s2 v hP hF]
    | thrown e_f => rw [guarded_returned_thrown mode F P s s1 s2 v e_f hP hF]
  | thrown e_p =>
    cases r with
    | returned u => rw [guarded_thrown_returned mode F P s s1 s2 e_p hP hF]
    | thrown e_f =>
      by_cases hm : mode = 1
      · subst hm
        rw [guarded_thrown_thrown_preserve F P s s1 s2 e_p e_f hP hF]
      · rw [guarded_thrown_thrown_discard mode hm F P s s1 s2 e_p e_f hP hF]

/-- A guarded block whose finalizer throws does not return. -/
theorem guarded_thrown_of_finally_thrown {S V : Type} (mode : Nat) (F : Block S Unit)
    (P : Block S V) (s : S) (e_f : Exn) (hF : (F (P s).2).1 = .thrown e_f) :
    ∃ e, (DETAIL_HNG_DT_DEFER_FINALLY mode F P s).1 = .thrown e := by
  rcases hP : P s with ⟨o, s1⟩
  rw [hP] at hF
  rcases hF1 : F s1 with ⟨r, s2⟩
  rw [hF1] at hF
  simp only at hF
  subst hF
  cases o with
  | returned v => exact ⟨e_f, by rw [guarded_returned_thrown mode F P s s1 s2 v e_f hP hF1]⟩
  | thrown e_p =>
    by_cases hm : mode = 1
    · subst hm
      exact ⟨_, by rw [guarded_thrown_thrown_preserve F P s s1 s2 e_p e_f hP hF1]⟩
    · exact ⟨e_f, by rw [guarded_thrown_thrown_discard mode hm F P s s1 s2 e_p e_f hP hF1]⟩

/-- Outcome and state of a guarded block do not change when its blocks are traced. -/
theorem guarded_traced_erase {S V Ev : Type} (mode : Nat) (a b : Ev) (F : Block S Unit)
    (P : Block S V) (s : S) (log : List Ev) :
    ((DETAIL_HNG_DT_DEFER_FINALLY mode (traced b F) (traced a P) (s, log)).1,
     (DETAIL_HNG_DT_DEFER_FINALLY mode (traced b F) (traced a P) (s, log)).2.1)
      = DETAIL_HNG_DT_DEFER_FINALLY mode F P s := by
  rcases hP : P s with ⟨o, s1⟩
  rcases hF : F s1 with ⟨r, s2⟩
  have hP1 : traced a P (s, log) = (o, (s1, log ++ [a])) := by simp [traced, hP]
  have hF1 : traced b F (s1, log ++ [a]) = (r, (s2, log ++ [a] ++ [b])) := by
    simp [traced, hF]
  cases o with
  | returned v =>
    cases r with
    | returned u =>
      rw [guarded_returned_returned mode F P s s1 s2 v hP hF,
        guarded_returned_returned mode _ _ _ _ _ v hP1 hF1]
    | thrown e_f =>
      rw [guarded_returned_thrown mode F P s s1 s2 v e_f hP hF,
        guarded_returned_thrown mode _ _ _ _ _ v e_f hP1 hF1]
  | thrown e_p =>
    cases r with
    | returned u =>
      rw [guarded_thrown_returned mode F P s s1 s2 e_p hP hF,
        guarded_thrown_returned mode _ _ _ _ _ e_p hP1 hF1]
    | thrown e_f =>
      by_cases hm : mode = 1
      · subst hm
        rw [guarded_thrown_thrown_preserve F P s s1 s2 e_p e_f hP hF,
          guarded_thrown_thrown_preserve _ _ _ _ _ e_p e_f hP1 hF1]
      · rw [guarded_thrown_thrown_discard mode hm F P s s1 s2 e_p e_f hP hF,
          guarded_thrown_thrown_discard mode hm _ _ _ _ _ e_p e_f hP1 hF1]

/-- The log after a guarded block of traced blocks: the protected block, then the
finalizer, once each. -/
theorem guarded_traced_log {S V Ev : Type} (mode : Nat) (a b : Ev) (F : Block S Unit)
    (P : Block S V) (s : S) (log : List Ev) :
    (DETAIL_HNG_DT_DEFER_FINALLY mode (traced b F) (traced a P) (s, log)).2.2
      = log ++ [a, b] := by
  rw [guarded_state]
  simp [traced]

/-- C6: for every protected block, finalizer and mode (0 is discard, 1 is preserve), in
every combination of outcomes, the guarded block invokes the protected block and then the
finalizer, once each: with both blocks traced, exactly `try_fn, finally_fn` is appended to
the log, so the count of finalizer invocations grows by one, and tracing changes neither
outcome nor state. When the protected block returned, `DETAIL_HNG_DT_invoked` is set when
the try statements are left, so the handler does not invoke the finalizer again. -/
theorem finalizer_invoked_exactly_once {S V : Type} (mode : Nat) (F : Block S Unit)
    (P : Block S V) (s : S) (log : List Event) :
    (DETAIL_HNG_DT_DEFER_FINALLY mode (traced Event.finally_fn F) (traced Event.try_fn P)
      (s, log)).2.2 = log ++ [Event.try_fn, Event.finally_fn] ∧
    (DETAIL_HNG_DT_DEFER_FINALLY mode (traced Event.finally_fn F) (traced Event.try_fn P)
      (s, log)).2.2.count Event.finally_fn = log.count Event.finally_fn + 1 ∧
    ((DETAIL_HNG_DT_DEFER_FINALLY mode (traced Event.finally_fn F) (traced Event.try_fn P)
        (s, log)).1,
     (DETAIL_HNG_DT_DEFER_FINALLY mode (traced Event.finally_fn F) (traced Event.try_fn P)
        (s, log)).2.1) = DETAIL_HNG_DT_DEFER_FINALLY mode F P s ∧
    ∀ (v : V) (s1 : S), P s = (.returned v, s1) →
      (DETAIL_HNG_DT_END_TRY_STATEMENTS mode F P false s).2.1 = true := by
  have hlog := guarded_traced_log mode Event.try_fn Event.finally_fn F P s log
  refine ⟨hlog, ?_, guarded_traced_erase mode _ _ F P s log, fun v s1 hP => ?_⟩
  · rw [hlog]
    simp [List.count_append]
  · rcases hF : F s1 with ⟨r, s2⟩
    cases r <;>
      simp [DETAIL_HNG_DT_END_TRY_STATEMENTS, DETAIL_HNG_DT_END_INVOKE_FINALLY, hP, hF]

/-- The try block `x = 2;` returns and the defer block throws "test" (test "PRESERVE -
defer block exception"), under either policy: the log is `try_fn, finally_fn`. -/
theorem finalizer_invoked_exactly_once_witness :
    defer_tests.x_set_2 1 = (.returned (), 2) ∧
    (HNG_DT_DEFER_FINALLY (traced Event.finally_fn (defer_tests.throw_test (S := Int)))
      (traced Event.try_fn defer_tests.x_set_2) (1, [])).2.2
        = [Event.try_fn, Event.finally_fn] ∧
    (HNG_DT_DEFER_FINALLY_PRESERVE
      (traced Event.finally_fn (defer_tests.throw_test (S := Int)))
      (traced Event.try_fn defer_tests.x_set_2) (1, [])).2.2
        = [Event.try_fn, Event.finally_fn] ∧
    (DETAIL_HNG_DT_END_TRY_STATEMENTS 1 defer_tests.throw_test defer_tests.x_set_2
      false 1).2.1 = true :=
  ⟨rfl,
   (finalizer_invoked_exactly_once 0 defer_tests.throw_test defer_tests.x_set_2 1 []).1,
   (finalizer_invoked_exactly_once 1 defer_tests.throw_test defer_tests.x_set_2 1 []).1,
   (finalizer_invoked_exactly_once 1 defer_tests.throw_test defer_tests.x_set_2 1 []).2.2.2
     () 2 rfl⟩

/-- The negation of C7 as stated: it is not the case that under the preserve policy the
`what()` of what is raised is always the `what()` of the finalizer failure. The try block
throws "e1", the defer block throws "e2", and the raised object says "defer exception". -/
theorem chained_failure_message_counterexample :
    ¬ ∀ (F P : Block Unit Unit) (s s1 s2 : Unit) (e_p e_f : Exn),
        P s = (.thrown e_p, s1) → F s1 = (.thrown e_f, s2) →
        ∃ dex, HNG_DT_DEFER_FINALLY_PRESERVE F P s = (.thrown dex, s2) ∧
          dex.what = e_f.what := by
  intro h
  obtain ⟨dex, hdex, hwhat⟩ := h defer_tests.throw_e2 defer_tests.throw_e1 () () ()
    (.runtime_error "e1") (.runtime_error "e2") rfl rfl
  have hrun := guarded_thrown_thrown_preserve defer_tests.throw_e2 defer_tests.throw_e1
    () () () (.runtime_error "e1") (.runtime_error "e2") rfl rfl
  rw [HNG_DT_DEFER_FINALLY_PRESERVE, hrun] at hdex
  simp only [Prod.mk.injEq, Outcome.thrown.injEq, and_true] at hdex
  subst hdex
  revert hwhat
  decide

/-- C7, amended: when under the preserve policy the protected block fails with `e_p` and
the finalizer fails with `e_f`, the `what()` of the raised object is the fixed text
"defer exception" of the constructor `defer_exception(std::exception_ptr&&)`; the message
of `e_f` is the `what()` of the failure its `exception_ptr()` carries. -/
theorem chained_failure_message {S V : Type} (F : Block S Unit) (P : Block S V)
    (s s1 s2 : S) (e_p e_f : Exn) (hP : P s = (.thrown e_p, s1))
    (hF : F s1 = (.thrown e_f, s2)) :
    ∃ (dex : Exn) (base : defer_exception Exn),
      HNG_DT_DEFER_FINALLY_PRESERVE F P s = (.thrown dex, s2) ∧
      dex.what = "defer exception" ∧
      dex.as_defer_exception = some base ∧
      base.what = "defer exception" ∧
      base.exception_ptr.map Exn.what = some e_f.what :=
  ⟨.nested_defer_exception (defer_exception.of_exception_ptr (some e_f)) (some e_p),
   defer_exception.of_exception_ptr (some e_f),
   guarded_thrown_thrown_preserve F P s s1 s2 e_p e_f hP hF, rfl, rfl, rfl, rfl⟩

/-- The try block throws "e1" and the defer block throws "e2" under the preserve policy:
the raised object says "defer exception" and carries the failure that says "e2". -/
theorem chained_failure_message_witness :
    defer_tests.throw_e1 () = (.thrown (.runtime_error "e1"), ()) ∧
    defer_tests.throw_e2 () = (.thrown (.runtime_error "e2"), ()) ∧
    ∃ (dex : Exn) (base : defer_exception Exn),
      HNG_DT_DEFER_FINALLY_PRESERVE defer_tests.throw_e2 defer_tests.throw_e1 ()
        = (.thrown dex, ()) ∧
      dex.what = "defer exception" ∧
      dex.as_defer_exception = some base ∧
      base.what = "defer exception" ∧
      base.exception_ptr.map Exn.what = some "e2" :=
  ⟨rfl, rfl,
   chained_failure_message defer_tests.throw_e2 defer_tests.throw_e1 () () ()
     (.runtime_error "e1") (.runtime_error "e2") rfl rfl⟩

/-- C9: for a protected block returning `v` and a succeeding finalizer, in
`y = <guarded block>;` the finalizer runs on the state the protected block left, before
the store into `y`; the store then happens on the state the finalizer left, and reading
`y` afterwards gives `v`. In the test "expression return value" with any start values
`x0`, `y0` and any returned `v0`, the finalizer `x = y;` copies `y0`, the value `y` had
before the call: afterwards `x == y0` and `y == v0`. -/
theorem finalizer_runs_before_result_is_observed {S V : Type} (get_y : S → V)
    (set_y : S → V → S) (hget : ∀ (t : S) (w : V), get_y (set_y t w) = w) (mode : Nat)
    (F : Block S Unit) (P : Block S V) (s s1 s2 : S) (v : V)
    (hP : P s = (.returned v, s1)) (hF : F s1 = (.returned (), s2)) :
    assign set_y (DETAIL_HNG_DT_DEFER_FINALLY mode F P) s = (.returned (), set_y s2 v) ∧
    get_y (assign set_y (DETAIL_HNG_DT_DEFER_FINALLY mode F P) s).2 = v ∧
    ∀ (x0 y0 v0 : Int),
      defer_tests.expr_statement v0 ⟨x0, y0⟩ = (.returned (), ⟨y0, v0⟩) := by
  have h : assign set_y (DETAIL_HNG_DT_DEFER_FINALLY mode F P) s
      = (.returned (), set_y s2 v) := by
    simp only [assign, guarded_returned_returned mode F P s s1 s2 v hP hF]
  refine ⟨h, ?_, fun x0 y0 v0 => rfl⟩
  rw [h]
  exact hget s2 v

/-- Test "expression return value": `x = 0`, `y = 1`, the defer block does `x = y;`, the
try block returns 2; afterwards `x == 1` and `y == 2`. -/
theorem finalizer_runs_before_result_is_observed_witness :
    (∀ (t : defer_tests.ExprLocals) (w : Int), (t.set_y w).y = w) ∧
    return_ (fun _ => (2 : Int)) (⟨0, 1⟩ : defer_tests.ExprLocals) = (.returned 2, ⟨0, 1⟩) ∧
    defer_tests.expr_finally ⟨0, 1⟩ = (.returned (), ⟨1, 1⟩) ∧
    defer_tests.expr_statement 2 ⟨0, 1⟩ = (.returned (), ⟨1, 2⟩) ∧
    (defer_tests.expr_statement 2 ⟨0, 1⟩).2.y = 2 :=
  have h := finalizer_runs_before_result_is_observed defer_tests.ExprLocals.y
    defer_tests.ExprLocals.set_y (fun _ _ => rfl) 0 defer_tests.expr_finally
    (return_ fun _ => (2 : Int)) ⟨0, 1⟩ ⟨0, 1⟩ ⟨1, 1⟩ 2 rfl rfl
  ⟨fun _ _ => rfl, rfl, rfl, h.1, h.2.1⟩

/-- C10: nested guarded blocks resolve inside out. With the outer protected block traced
as `a`, the outer finalizer made of an inner guarded block (protected block `b`, finalizer
`c`) followed by further statements `d`, and statements `e` after the outer block, the
log always starts `a, b, c`, whatever the outcomes and modes; `d` comes only after `c`
and `e` only after `d`. When no block throws, the final state is `after` of `rest` of the
inner finalizer of the inner protected block of the outer protected block. In the test
"nested defer" the recorded sequence is exactly `[1, 2, 3, 4]`. -/
theorem nested_guarded_blocks_inside_out {S Ev : Type} (m_out m_in : Nat)
    (P_out P_in F_in rest after : Block S Unit) (a b c d e : Ev) (s : S) (log : List Ev)
    (f1 f2 f3 f_rest f4 : S → S) :
    (∃ tail : List Ev,
      (seq (DETAIL_HNG_DT_DEFER_FINALLY m_out
              (seq (DETAIL_HNG_DT_DEFER_FINALLY m_in (traced c F_in) (traced b P_in))
                (traced d rest))
              (traced a P_out))
          (traced e after) (s, log)).2.2 = log ++ [a, b, c] ++ tail ∧
      (tail = [] ∨ tail = [d] ∨ tail = [d, e])) ∧
    seq (DETAIL_HNG_DT_DEFER_FINALLY m_out
            (seq (DETAIL_HNG_DT_DEFER_FINALLY m_in (stmt f3) (stmt f2)) (stmt f_rest))
            (stmt f1))
        (stmt f4) s = (.returned (), f4 (f_rest (f3 (f2 (f1 s))))) ∧
    defer_tests.nested_defer [] = (.returned (), [1, 2, 3, 4]) := by
  refine ⟨?_, ?_, rfl⟩
  · -- the outer protected block
    rcases hPo : P_out s with ⟨o1, s1⟩
    have hout := guarded_state m_out
      (seq (DETAIL_HNG_DT_DEFER_FINALLY m_in (traced c F_in) (traced b P_in))
        (traced d rest)) (traced a P_out) (s, log)
    have hPo1 : (traced a P_out (s, log)).2 = (s1, log ++ [a]) := by simp [traced, hPo]
    rw [hPo1] at hout
    -- the inner guarded block
    have hin := guarded_traced_log m_in b c F_in P_in s1 (log ++ [a])
    rcases hinner : DETAIL_HNG_DT_DEFER_FINALLY m_in (traced c F_in) (traced b P_in)
      (s1, log ++ [a]) with ⟨oi, si, li⟩
    rw [hinner] at hin
    simp only at hin
    subst hin
    cases oi with
    | returned u =>
      rcases hrest : rest si with ⟨orest, s3⟩
      have hfin : (seq (DETAIL_HNG_DT_DEFER_FINALLY m_in (traced c F_in) (traced b P_in))
          (traced d rest) (s1, log ++ [a])).2 = (s3, log ++ [a] ++ [b, c] ++ [d]) := by
        simp [seq, hinner, traced, hrest]
      rw [hfin] at hout
      rcases houter : DETAIL_HNG_DT_DEFER_FINALLY m_out
        (seq (DETAIL_HNG_DT_DEFER_FINALLY m_in (traced c F_in) (traced b P_in))
          (traced d rest)) (traced a P_out) (s, log) with ⟨oo, so⟩
      rw [houter] at hout
      simp only at hout
      subst hout
      cases oo with
      | returned u1 =>
        refine ⟨[d, e], ?_, Or.inr (Or.inr rfl)⟩
        rcases hafter : after s3 with ⟨oa, s4⟩
        simp [seq, houter, traced, hafter]
      | thrown e1 =>
        refine ⟨[d], ?_, Or.inr (Or.inl rfl)⟩
        simp [seq, houter]
    | thrown ei =>
      have hseq : seq (DETAIL_HNG_DT_DEFER_FINALLY m_in (traced c F_in) (traced b P_in))
          (traced d rest) (s1, log ++ [a]) = (.thrown ei, (si, log ++ [a] ++ [b, c])) := by
        simp [seq, hinner]
      rw [hseq] at hout
      have hthrown := guarded_thrown_of_finally_thrown m_out
        (seq (DETAIL_HNG_DT_DEFER_FINALLY m_in (traced c F_in) (traced b P_in))
          (traced d rest)) (traced a P_out) (s, log) ei (by rw [hPo1, hseq])
      obtain ⟨eo, heo⟩ := hthrown
      rcases houter : DETAIL_HNG_DT_DEFER_FINALLY m_out
        (seq (DETAIL_HNG_DT_DEFER_FINALLY m_in (traced c F_in) (traced b P_in))
          (traced d rest)) (traced a P_out) (s, log) with ⟨oo, so⟩
      rw [houter] at hout heo
      simp only at hout heo
      subst hout heo
      refine ⟨[], ?_, Or.inl rfl⟩
      simp [seq, houter]
  · have hin : DETAIL_HNG_DT_DEFER_FINALLY m_in (stmt f3) (stmt f2) (f1 s)
        = (.returned (), f3 (f2 (f1 s))) :=
      guarded_returned_returned m_in _ _ _ (f2 (f1 s)) _ () rfl rfl
    have hfin : seq (DETAIL_HNG_DT_DEFER_FINALLY m_in (stmt f3) (stmt f2)) (stmt f_rest)
        (f1 s) = (.returned (), f_rest (f3 (f2 (f1 s)))) := by
      simp [seq, hin, stmt]
    have hout := guarded_returned_returned m_out
      (seq (DETAIL_HNG_DT_DEFER_FINALLY m_in (stmt f3) (stmt f2)) (stmt f_rest))
      (stmt f1) s (f1 s) _ () rfl hfin
    simp [seq, hout, stmt]

/-! ## Result types: references, moves, and the two versions of the try statements -/

/-- The C++17 guarded block is the guarded block over the protected block followed by the
declaration of `DETAIL_HNG_DT_result`. -/
theorem guarded_cpp17_eq {S L T : Type} (mem : Objects S L T) (R : ResultType)
    (mode : Nat) (F : Block S Unit) (P : Block S (R.Call L T)) :
    DETAIL_HNG_DT_DEFER_FINALLY_CPP17 mem R mode F P
      = DETAIL_HNG_DT_DEFER_FINALLY mode F (DETAIL_HNG_DT_result_CPP17 mem R P) :=
  rfl

/-- The fallback try statements are the C++17 try statements. -/
theorem try_statements_fallback_eq {S L T : Type} (mem : Objects S L T) (R : ResultType)
    (mode : Nat) (F : Block S Unit) (P : Block S (R.Call L T)) (invoked : Bool) (s : S) :
    DETAIL_HNG_DT_END_TRY_STATEMENTS_FALLBACK mem R mode F P invoked s
      = DETAIL_HNG_DT_END_TRY_STATEMENTS_CPP17 mem R mode F P invoked s := by
  cases R with
  | void =>
    simp only [DETAIL_HNG_DT_END_TRY_STATEMENTS_FALLBACK,
      DETAIL_HNG_DT_END_TRY_STATEMENTS_CPP17, DETAIL_HNG_DT_END_TRY_STATEMENTS,
      DETAIL_HNG_DT_result_CPP17, DETAIL_HNG_DT_result_FALLBACK,
      detail.defer.dt_invoke, detail.defer.dt_return_forward]
    rcases hP : P s with ⟨o, s1⟩
    cases o with
    | returned u =>
      rcases hF : DETAIL_HNG_DT_END_INVOKE_FINALLY none mode F s1 with ⟨r, s2⟩
      cases r with
      | returned v =>
        simp only [hF]
        rfl
      | thrown e => simp [hF]
    | thrown e => simp
  | lvalue_reference =>
    simp only [DETAIL_HNG_DT_END_TRY_STATEMENTS_FALLBACK,
      DETAIL_HNG_DT_END_TRY_STATEMENTS_CPP17, DETAIL_HNG_DT_END_TRY_STATEMENTS,
      DETAIL_HNG_DT_result_CPP17, DETAIL_HNG_DT_result_FALLBACK,
      detail.defer.dt_invoke, detail.defer.dt_return_forward]
    rcases hP : P s with ⟨o, s1⟩
    cases o with
    | returned u =>
      rcases hF : DETAIL_HNG_DT_END_INVOKE_FINALLY none mode F s1 with ⟨r, s2⟩
      cases r <;> simp [hF]
    | thrown e => simp
  | value =>
    simp only [DETAIL_HNG_DT_END_TRY_STATEMENTS_FALLBACK,
      DETAIL_HNG_DT_END_TRY_STATEMENTS_CPP17, DETAIL_HNG_DT_END_TRY_STATEMENTS,
      DETAIL_HNG_DT_result_CPP17, DETAIL_HNG_DT_result_FALLBACK,
      detail.defer.dt_invoke, detail.defer.dt_return_forward]
    rcases hP : P s with ⟨o, s1⟩
    cases o with
    | returned u =>
      rcases hF : DETAIL_HNG_DT_END_INVOKE_FINALLY none mode F s1 with ⟨r, s2⟩
      cases r <;> simp [hF]
    | thrown e => simp
  | rvalue_reference =>
    simp only [DETAIL_HNG_DT_END_TRY_STATEMENTS_FALLBACK,
      DETAIL_HNG_DT_END_TRY_STATEMENTS_CPP17, DETAIL_HNG_DT_END_TRY_STATEMENTS,
      DETAIL_HNG_DT_result_CPP17, DETAIL_HNG_DT_result_FALLBACK,
      detail.defer.dt_invoke, detail.defer.dt_return_forward]
    rcases hP : P s with ⟨o, s1⟩
    cases o with
    | returned ref =>
      rcases hF : DETAIL_HNG_DT_END_INVOKE_FINALLY none mode F
        (mem.move_construct ref s1).2 with ⟨r, s2⟩
      cases r <;> simp [hF]
    | thrown e => simp

/-- The fallback guarded block is the C++17 guarded block. -/
theorem guarded_fallback_eq {S L T : Type} (mem : Objects S L T) (R : ResultType)
    (mode : Nat) (F : Block S Unit) (P : Block S (R.Call L T)) :
    DETAIL_HNG_DT_DEFER_FINALLY_FALLBACK mem R mode F P
      = DETAIL_HNG_DT_DEFER_FINALLY_CPP17 mem R mode F P := by
  funext s
  simp only [DETAIL_HNG_DT_DEFER_FINALLY_FALLBACK, DETAIL_HNG_DT_DEFER_FINALLY_CPP17,
    HNG_DT_END, try_statements_fallback_eq]

/-- The log after the C++17 guarded block of traced blocks, for every result type. -/
theorem guarded_cpp17_traced_log {S L T Ev : Type} (mem : Objects S L T)
    (R : ResultType) (mode : Nat) (a b : Ev) (F : Block S Unit)
    (P : Block S (R.Call L T)) (s : S) (log : List Ev) :
    (DETAIL_HNG_DT_DEFER_FINALLY_CPP17 (mem.with_log Ev) R mode (traced b F) (traced a P)
      (s, log)).2.2 = log ++ [a, b] := by
  rw [guarded_cpp17_eq, guarded_state]
  rcases hP : P s with ⟨o, s1⟩
  cases R with
  | void => simp [DETAIL_HNG_DT_result_CPP17, traced, hP]
  | lvalue_reference => simp [DETAIL_HNG_DT_result_CPP17, traced, hP]
  | value => simp [DETAIL_HNG_DT_result_CPP17, traced, hP]
  | rvalue_reference =>
    cases o with
    | returned ref =>
      simp [DETAIL_HNG_DT_result_CPP17, traced, hP, Objects.move_construct,
        Objects.with_log]
    | thrown e => simp [DETAIL_HNG_DT_result_CPP17, traced, hP]

/-! ## Scopes with `hng::defer` objects -/

/-- A compound statement that only holds other code is that code. -/
theorem scope_code {S V : Type} (c : Code S V) (s : S) :
    scope [Statement.code c] s = c s := by
  rcases h : c s with ⟨exit, s1⟩
  cases exit <;> simp [scope, h]

/-- A compound statement that starts with a guard: the remaining statements run first;
unless `std::terminate()` was called the destructor runs next. -/
theorem scope_declare_defer {S V : Type} (guard : defer S) (rest : List (Statement S V))
    (s : S) (h : (scope rest s).1 ≠ .terminated) :
    scope (Statement.declare_defer guard :: rest) s =
      match guard.destructor (scope rest s).2 with
      | (.terminated, s2) => (.terminated, s2)
      | (_, s2) => ((scope rest s).1, s2) := by
  rcases hr : scope rest s with ⟨exit, s1⟩
  rw [hr] at h
  cases exit <;> simp_all [scope]

/-- The destructor of a guard whose callable returns. -/
theorem destructor_of_returned {S : Type} (guard : defer S) (s s1 : S)
    (h : guard.m_callable.body s = (.returned (), s1)) :
    guard.destructor s = (.normal, s1) := by
  simp [defer.destructor, Callable.call, h]

/-- The destructor of a guard whose callable throws: `std::terminate()`. -/
theorem destructor_of_thrown {S : Type} (guard : defer S) (s s1 : S) (e : Exn)
    (h : guard.m_callable.body s = (.thrown e, s1)) :
    guard.destructor s = (.terminated, s1) := by
  cases hn : guard.m_callable.is_noexcept <;> simp [defer.destructor, Callable.call, h, hn]

/-- The state after the destructor is the state after the body of the callable. -/
theorem destructor_state {S : Type} (guard : defer S) (s : S) :
    (guard.destructor s).2 = (guard.m_callable.body s).2 := by
  rcases h : guard.m_callable.body s with ⟨o, s1⟩
  cases o with
  | returned u => rw [destructor_of_returned guard s s1 h]
  | thrown e => rw [destructor_of_thrown guard s s1 e h]

/-- The state after a scope with one guard and a body that does not end in
`std::terminate()`: the callable ran on the state the body left. -/
theorem scope_guard_state {S V : Type} (guard : defer S) (body : Code S V) (s : S)
    (h : (body s).1 ≠ .terminated) :
    (scope [Statement.declare_defer guard, Statement.code body] s).2
      = (guard.m_callable.body (body s).2).2 := by
  have h1 : (scope [Statement.code body] s).1 ≠ .terminated := by rwa [scope_code]
  rw [scope_declare_defer guard _ s h1, scope_code, ← destructor_state]
  rcases hd : guard.destructor (body s).2 with ⟨exit, s2⟩
  cases exit <;> rfl

/-- The exit of a scope with one guard whose callable returns: the exit of the body. -/
theorem scope_guard_exit {S V : Type} (guard : defer S) (body : Code S V) (s s2 : S)
    (h : (body s).1 ≠ .terminated)
    (hf : guard.m_callable.body (body s).2 = (.returned (), s2)) :
    scope [Statement.declare_defer guard, Statement.code body] s = ((body s).1, s2) := by
  have h1 : (scope [Statement.code body] s).1 ≠ .terminated := by rwa [scope_code]
  rw [scope_declare_defer guard _ s h1, scope_code,
    destructor_of_returned guard _ s2 hf]

/-- A scope with one guard whose callable throws ends in `std::terminate()`. -/
theorem scope_guard_terminated {S V : Type} (guard : defer S) (body : Code S V)
    (s s2 : S) (e : Exn) (h : (body s).1 ≠ .terminated)
    (hf : guard.m_callable.body (body s).2 = (.thrown e, s2)) :
    scope [Statement.declare_defer guard, Statement.code body] s = (.terminated, s2) := by
  have h1 : (scope [Statement.code body] s).1 ≠ .terminated := by rwa [scope_code]
  rw [scope_declare_defer guard _ s h1, scope_code,
    destructor_of_thrown guard _ s2 e hf]

/-- The log after a scope with one traced guard and a traced body: the body, then the
callable, once. -/
theorem scope_guard_traced_log {S V Ev : Type} (guard : defer S) (body : Code S V)
    (b g : Ev) (s : S) (log : List Ev) (h : (body s).1 ≠ .terminated) :
    (scope [Statement.declare_defer ⟨guard.m_callable.traced g⟩,
        Statement.code (traced_code b body)] (s, log)).2.2 = log ++ [b, g] := by
  have h1 : (traced_code b body (s, log)).1 ≠ .terminated := by
    simpa [traced_code] using h
  rw [scope_guard_state _ _ _ h1]
  simp [traced_code, Callable.traced, traced]

/-! ## Claims on references, ownership and the scope guard -/

/-- C11: when the protected block returns an lvalue reference `ref` to a caller-owned
object and the finalizer succeeds, the guarded block yields that very reference (in the
C++17 branch and through `dt_return_forward` in the fallback), the state is exactly the
one the finalizer left, so the finalizer has run and nothing was copied, moved or written
by the guarded block itself: when the finalizer leaves the object alone, the caller reads
the content the protected block left. -/
theorem reference_result_is_same_object {S L T : Type} (mem : Objects S L T) (mode : Nat)
    (F : Block S Unit) (P : Block S L) (s s1 s2 : S) (ref : L)
    (hP : P s = (.returned ref, s1)) (hF : F s1 = (.returned (), s2)) :
    DETAIL_HNG_DT_DEFER_FINALLY_CPP17 mem ResultType.lvalue_reference mode F P s
      = (.returned ref, s2) ∧
    DETAIL_HNG_DT_DEFER_FINALLY_FALLBACK mem ResultType.lvalue_reference mode F P s
      = (.returned ref, s2) ∧
    (mem.load s2 ref = mem.load s1 ref →
      mem.load (DETAIL_HNG_DT_DEFER_FINALLY_CPP17 mem ResultType.lvalue_reference mode F
        P s).2 ref = mem.load s1 ref) := by
  have h : DETAIL_HNG_DT_DEFER_FINALLY_CPP17 mem ResultType.lvalue_reference mode F P s
      = (.returned ref, s2) := by
    rw [guarded_cpp17_eq]
    exact guarded_returned_returned mode F _ s s1 s2 ref hP hF
  refine ⟨h, ?_, fun hkeep => ?_⟩
  · rw [guarded_fallback_eq]
    exact h
  · rw [h]
    exact hkeep

/-- Test "expression return value by reference": `x` owns 3, `z = 1`; the result is the
reference to `x` itself (`&r == &x`), `*r == 3` and `z == 2`. -/
theorem reference_result_is_same_object_witness :
    defer_tests.return_ref_x ⟨some 3, 1⟩ = (.returned defer_tests.PtrName.x, ⟨some 3, 1⟩) ∧
    defer_tests.z_set_2 ⟨some 3, 1⟩ = (.returned (), ⟨some 3, 2⟩) ∧
    defer_tests.by_reference ⟨some 3, 1⟩
      = (.returned defer_tests.PtrName.x, ⟨some 3, 2⟩) ∧
    defer_tests.ptr_objects.load (defer_tests.by_reference ⟨some 3, 1⟩).2
      defer_tests.PtrName.x = some 3 :=
  have h := reference_result_is_same_object defer_tests.ptr_objects 0 defer_tests.z_set_2
    defer_tests.return_ref_x ⟨some 3, 1⟩ ⟨some 3, 1⟩ ⟨some 3, 2⟩ defer_tests.PtrName.x
    rfl rfl
  ⟨rfl, rfl, h.1, h.2.2 rfl⟩

/-- C12: when the protected block yields an rvalue reference `ref` to a caller-owned
object holding `c` and the finalizer succeeds, `DETAIL_HNG_DT_result` is move-constructed
from that object, so the caller receives `c` by value; the finalizer has run (on the state
in which the source is moved-from) before the caller gets the result. -/
theorem rvalue_reference_result_transfers_content {S L T : Type} (mem : Objects S L T)
    (mode : Nat) (F : Block S Unit) (P : Block S L) (s s1 s2 : S) (ref : L)
    (hP : P s = (.returned ref, s1))
    (hF : F (mem.store s1 ref (mem.moved_from (mem.load s1 ref))) = (.returned (), s2)) :
    DETAIL_HNG_DT_DEFER_FINALLY_CPP17 mem ResultType.rvalue_reference mode F P s
      = (.returned (mem.load s1 ref), s2) := by
  rw [guarded_cpp17_eq]
  refine guarded_returned_returned mode F _ s _ s2 (mem.load s1 ref) ?_ hF
  simp [DETAIL_HNG_DT_result_CPP17, hP, Objects.move_construct]

/-- Test "expression return value by move": `x` owns 3, `z = 1`; the result `r` owns 3
(`r && *r == 3`) and `z == 2`. -/
theorem rvalue_reference_result_transfers_content_witness :
    defer_tests.return_ref_x ⟨some 3, 1⟩ = (.returned defer_tests.PtrName.x, ⟨some 3, 1⟩) ∧
    defer_tests.z_set_2 ⟨none, 1⟩ = (.returned (), ⟨none, 2⟩) ∧
    defer_tests.by_move ⟨some 3, 1⟩ = (.returned (some 3), ⟨none, 2⟩) :=
  ⟨rfl, rfl,
   rvalue_reference_result_transfers_content defer_tests.ptr_objects 0
     defer_tests.z_set_2 defer_tests.return_ref_x ⟨some 3, 1⟩ ⟨some 3, 1⟩ ⟨none, 2⟩
     defer_tests.PtrName.x rfl rfl⟩

/-- C18: `hng::defer_exception` is a passive carrier. Constructed from a message `m` and a
carried failure `p`, `what()` is `m` and `exception_ptr()` is `p`; constructed from `p`
alone, `what()` is "defer exception" and `exception_ptr()` is `p`; default-constructed,
`what()` is "defer exception" and `exception_ptr()` is empty; and a `defer_exception`
built by any of these constructors and thrown as it is has no `std::nested_exception`
base, so `std::rethrow_if_nested` on it returns without rethrowing anything: no caused-by
is reported. -/
theorem defer_exception_round_trip (m : String) (p : Option Exn) :
    (defer_exception.of_message m p).what = m ∧
    (defer_exception.of_message m p).exception_ptr = p ∧
    (Exn.defer_exception (defer_exception.of_message m p)).what = m ∧
    (Exn.defer_exception (defer_exception.of_message m p)).as_defer_exception
      = some (defer_exception.of_message m p) ∧
    (defer_exception.of_exception_ptr p).what = "defer exception" ∧
    (defer_exception.of_exception_ptr p).exception_ptr = p ∧
    (defer_exception.default_constructed : defer_exception Exn).what = "defer exception" ∧
    (defer_exception.default_constructed : defer_exception Exn).exception_ptr = none ∧
    (Exn.defer_exception (defer_exception.of_message m p)).rethrow_if_nested = .normal ∧
    (Exn.defer_exception (defer_exception.of_exception_ptr p)).rethrow_if_nested
      = .normal ∧
    (Exn.defer_exception defer_exception.default_constructed).rethrow_if_nested
      = .normal :=
  ⟨rfl, rfl, rfl, rfl, rfl, rfl, rfl, rfl, rfl, rfl, rfl⟩

/-- C13: a `hng::defer` constructed with a callable does not run it while the scope is
executing and runs it exactly once when the scope is left, for every way of leaving it
(falling through, `return`, exception). With body and callable traced, the log gains the
body and then the callable, once; the body starts on the state the scope started on and
the callable runs on the state the body left; when the callable returns, the scope is
left the way its body was left. For a counter that the callable increments: a body that
returns the counter it reads returns the value before, a body that throws or falls
through leaves it untouched, and after the scope the counter is one higher. Tests "defer
class - basic" and "... type argument inference": the pointer is valid inside the scope,
also when the check returns early, and null afterwards. -/
theorem defer_fires_once_at_scope_exit {S V Ev : Type} (callable : Callable S)
    (body : Code S V) (b g : Ev) (s : S) (log : List Ev) (n : Nat) (e : Exn) :
    ((body s).1 ≠ .terminated →
      (scope [Statement.declare_defer (defer.of_rvalue (callable.traced g)),
          Statement.code (traced_code b body)] (s, log)).2.2 = log ++ [b, g] ∧
      (scope [Statement.declare_defer (defer.of_const_ref (callable.traced g)),
          Statement.code (traced_code b body)] (s, log)).2.2 = log ++ [b, g] ∧
      (scope [Statement.declare_defer (defer.of_rvalue callable), Statement.code body]
          s).2 = (callable.body (body s).2).2) ∧
    (∀ s2 : S, (body s).1 ≠ .terminated → callable.body (body s).2 = (.returned (), s2) →
      scope [Statement.declare_defer (defer.of_rvalue callable), Statement.code body] s
        = ((body s).1, s2)) ∧
    scope [Statement.declare_defer (defer.of_rvalue (noexcept_lambda (stmt (· + 1)))),
        Statement.code (fun c : Nat => (Completion.returned c, c))] n
      = (.returned n, n + 1) ∧
    scope [Statement.declare_defer (defer.of_rvalue (noexcept_lambda (stmt (· + 1)))),
        Statement.code (fun c : Nat => ((Completion.thrown e : Completion Nat), c))] n
      = (.thrown e, n + 1) ∧
    scope [Statement.declare_defer (defer.of_rvalue (noexcept_lambda (stmt (· + 1)))),
        Statement.code (fun c : Nat => ((Completion.normal : Completion Nat), c))] n
      = (.normal, n + 1) ∧
    defer_tests.defer_test defer_tests.basic_guard 4 (some 4) = (.returned true, none) ∧
    defer_tests.defer_test defer_tests.inference_guard 5 (some 5)
      = (.returned true, none) ∧
    defer_tests.defer_test defer_tests.basic_guard 4 (some 7)
      = (.returned false, none) := by
  refine ⟨fun h => ⟨?_, ?_, ?_⟩, fun s2 h hf => ?_, rfl, rfl, rfl, ?_, ?_, ?_⟩
  · exact scope_guard_traced_log ⟨callable⟩ body b g s log h
  · exact scope_guard_traced_log ⟨callable⟩ body b g s log h
  · exact scope_guard_state ⟨callable⟩ body s h
  · exact scope_guard_exit ⟨callable⟩ body s s2 h hf
  · rfl
  · rfl
  · rfl

/-- The guard of "defer class - basic" around a check that returns early (the pointer
holds 7, the check asks for 4): the log is body, callable; the pointer is null after the
scope and the early `return false` is what leaves the scope. -/
theorem defer_fires_once_at_scope_exit_witness :
    (defer_tests.check_raw_ptr 4 (some 7)).1 ≠ .terminated ∧
    (scope [Statement.declare_defer
          (defer.of_rvalue ((noexcept_lambda defer_tests.delete_raw_ptr).traced 1)),
        Statement.code (traced_code 0 (defer_tests.check_raw_ptr 4))]
        (some 7, ([] : List Nat))).2.2 = [0, 1] ∧
    scope [Statement.declare_defer
          (defer.of_rvalue (noexcept_lambda defer_tests.delete_raw_ptr)),
        Statement.code (defer_tests.check_raw_ptr 4)] (some 7)
      = (.returned false, none) :=
  have h := defer_fires_once_at_scope_exit (noexcept_lambda defer_tests.delete_raw_ptr)
    (defer_tests.check_raw_ptr 4) 0 1 (some 7) [] 0 (.runtime_error "test")
  have hbody : (defer_tests.check_raw_ptr 4 (some 7)).1 ≠ .terminated := by
    simp [defer_tests.check_raw_ptr]
  ⟨hbody, (h.1 hbody).1, h.2.1 none hbody rfl⟩

/-- A traced block appends its event to the log. -/
theorem traced_log {S V Ev : Type} (ev : Ev) (B : Block S V) (sl : S × List Ev) :
    (traced ev B sl).2.2 = sl.2 ++ [ev] := by
  simp [traced]

/-- A scope that starts with a guard and is left without `std::terminate()`: the
remaining statements were left without it too, the scope is left the way they were, and
the state is the one the callable leaves when run on the state they left. -/
theorem scope_declare_defer_left {S V : Type} (guard : defer S)
    (rest : List (Statement S V)) (s : S)
    (hleft : (scope (Statement.declare_defer guard :: rest) s).1 ≠ .terminated) :
    (scope rest s).1 ≠ .terminated ∧
    scope (Statement.declare_defer guard :: rest) s
      = ((scope rest s).1, (guard.m_callable.body (scope rest s).2).2) := by
  have hrest : (scope rest s).1 ≠ .terminated := by
    intro h
    apply hleft
    rcases hr : scope rest s with ⟨exit, s1⟩
    rw [hr] at h
    simp only at h
    subst h
    simp [scope, hr]
  refine ⟨hrest, ?_⟩
  rw [scope_declare_defer guard rest s hrest] at hleft ⊢
  rw [← destructor_state]
  rcases hd : guard.destructor (scope rest s).2 with ⟨d, s2⟩
  rw [hd] at hleft
  cases d with
  | terminated => simp at hleft
  | normal => rfl
  | returned u => rfl
  | thrown e => rfl

/-- A scope that declares the traced guards `guards` in this order and then runs a traced
body: when it is left without `std::terminate()`, it is left the way the body was left
and the log holds the body followed by the guards in reverse order of declaration. -/
theorem scope_guards_traced {S V Ev : Type} (guards : List (Ev × Callable S))
    (body : Code S V) (b : Ev) (s : S) (log : List Ev)
    (hleft : (scope (guards.map (fun g =>
          Statement.declare_defer (defer.of_rvalue (g.2.traced g.1)))
        ++ [Statement.code (traced_code b body)]) (s, log)).1 ≠ .terminated) :
    (scope (guards.map (fun g =>
          Statement.declare_defer (defer.of_rvalue (g.2.traced g.1)))
        ++ [Statement.code (traced_code b body)]) (s, log)).1 = (body s).1 ∧
    (scope (guards.map (fun g =>
          Statement.declare_defer (defer.of_rvalue (g.2.traced g.1)))
        ++ [Statement.code (traced_code b body)]) (s, log)).2.2
      = log ++ [b] ++ (guards.map Prod.fst).reverse := by
  induction guards with
  | nil =>
    simp only [List.map_nil, List.nil_append, List.reverse_nil, List.append_nil]
    rw [scope_code]
    exact ⟨rfl, rfl⟩
  | cons g gs ih =>
    simp only [List.map_cons, List.cons_append, List.reverse_cons] at hleft ⊢
    obtain ⟨hrest, heq⟩ := scope_declare_defer_left _ _ _ hleft
    obtain ⟨hexit, hlog⟩ := ih hrest
    rw [heq]
    refine ⟨hexit, ?_⟩
    show (traced g.1 g.2.body _).2.2 = _
    rw [traced_log, hlog, List.append_assoc]

/-- C14: guards created in the same scope fire in reverse order of creation, once each.
For `n` traced guards declared in order and then a traced body, whenever the scope is
left (by falling through, `return` or an exception, not by `std::terminate()`), it is
left the way the body was left and the log holds the body and then the guards from the
last to the first, once each. For two guards `g1`, `g2` with code between and after
them, the final state is the one `f1` leaves when run on the state `f2` left: `f2` runs,
then `f1`. -/
theorem defers_fire_in_reverse_order {S V Ev : Type} (guards : List (Ev × Callable S))
    (body : Code S V) (b : Ev) (s : S) (log : List Ev)
    (hleft : (scope (guards.map (fun g =>
          Statement.declare_defer (defer.of_rvalue (g.2.traced g.1)))
        ++ [Statement.code (traced_code b body)]) (s, log)).1 ≠ .terminated) :
    (scope (guards.map (fun g =>
          Statement.declare_defer (defer.of_rvalue (g.2.traced g.1)))
        ++ [Statement.code (traced_code b body)]) (s, log)).2.2
      = log ++ [b] ++ (guards.map Prod.fst).reverse ∧
    (scope (guards.map (fun g =>
          Statement.declare_defer (defer.of_rvalue (g.2.traced g.1)))
        ++ [Statement.code (traced_code b body)]) (s, log)).1 = (body s).1 ∧
    ∀ (f1 f2 : Callable S) (c1 c2 : Code S V) (s1 : S),
      c1 s = (.normal, s1) →
      (scope [Statement.declare_defer (defer.of_rvalue f1), Statement.code c1,
          Statement.declare_defer (defer.of_rvalue f2), Statement.code c2] s).1
        ≠ .terminated →
      scope [Statement.declare_defer (defer.of_rvalue f1), Statement.code c1,
          Statement.declare_defer (defer.of_rvalue f2), Statement.code c2] s
        = ((c2 s1).1, (f1.body (f2.body (c2 s1).2).2).2) := by
  obtain ⟨hexit, hlog⟩ := scope_guards_traced guards body b s log hleft
  refine ⟨hlog, hexit, ?_⟩
  intro f1 f2 c1 c2 s1 hc1 hl
  obtain ⟨hrest, heq⟩ := scope_declare_defer_left _ _ _ hl
  have hstep : scope [Statement.code c1, Statement.declare_defer (defer.of_rvalue f2),
      Statement.code c2] s
      = scope [Statement.declare_defer (defer.of_rvalue f2), Statement.code c2] s1 := by
    simp only [scope, hc1]
  rw [hstep] at hrest heq
  obtain ⟨_, heq2⟩ := scope_declare_defer_left _ _ _ hrest
  rw [heq, heq2, scope_code]
  rfl

/-- Three guards that append 1, 2 and 3 to the vector `a`, declared in this order before
a body that appends 0 and falls through: the scope falls through, the log is body, 3, 2,
1, and `a` holds 0, 3, 2, 1. -/
theorem defers_fire_in_reverse_order_witness :
    scope ([((1 : Nat), noexcept_lambda (defer_tests.push_back 1)),
            (2, noexcept_lambda (defer_tests.push_back 2)),
            (3, noexcept_lambda (defer_tests.push_back 3))].map (fun g =>
          Statement.declare_defer (defer.of_rvalue (g.2.traced g.1)))
        ++ [Statement.code (traced_code 0
              (fun a : List Int => ((Completion.normal : Completion Unit), a ++ [0])))])
        ([], [])
      = (.normal, ([0, 3, 2, 1], [0, 3, 2, 1])) ∧
    (scope ([((1 : Nat), noexcept_lambda (defer_tests.push_back 1)),
             (2, noexcept_lambda (defer_tests.push_back 2)),
             (3, noexcept_lambda (defer_tests.push_back 3))].map (fun g =>
          Statement.declare_defer (defer.of_rvalue (g.2.traced g.1)))
        ++ [Statement.code (traced_code 0
              (fun a : List Int => ((Completion.normal : Completion Unit), a ++ [0])))])
        ([], [])).2.2 = [] ++ [0] ++ ([1, 2, 3] : List Nat).reverse :=
  ⟨rfl,
   (defers_fire_in_reverse_order
      [((1 : Nat), noexcept_lambda (defer_tests.push_back 1)),
       (2, noexcept_lambda (defer_tests.push_back 2)),
       (3, noexcept_lambda (defer_tests.push_back 3))]
      (fun a : List Int => ((Completion.normal : Completion Unit), a ++ [0])) 0 [] []
      (by rw [show scope ([((1 : Nat), noexcept_lambda (defer_tests.push_back 1)),
            (2, noexcept_lambda (defer_tests.push_back 2)),
            (3, noexcept_lambda (defer_tests.push_back 3))].map (fun g =>
          Statement.declare_defer (defer.of_rvalue (g.2.traced g.1)))
        ++ [Statement.code (traced_code 0
              (fun a : List Int => ((Completion.normal : Completion Unit), a ++ [0])))])
        ([], []) = (.normal, ([0, 3, 2, 1], [0, 3, 2, 1])) from rfl]
          simp)).1⟩

/-- The negation of C15 as stated: it is not the case that a failure raised by the
callable of a `hng::defer` leaves the scope as that failure. A lambda without `noexcept`
that throws "test", guarded in a scope whose body falls through: the scope ends in
`std::terminate()`. -/
theorem defer_failure_counterexample :
    ¬ ∀ (callable : Callable Unit) (e : Exn), callable.body () = (.thrown e, ()) →
        scope [Statement.declare_defer (defer.of_rvalue callable),
            Statement.code (fun u : Unit => ((Completion.normal : Completion Unit), u))] ()
          = (.thrown e, ()) := by
  intro h
  have h1 := h (lambda (throw_ (.runtime_error "test"))) (.runtime_error "test") rfl
  have h2 := scope_guard_terminated (defer.of_rvalue (lambda (throw_ (.runtime_error "test"))))
    (fun u : Unit => ((Completion.normal : Completion Unit), u)) () ()
    (.runtime_error "test") (by simp) rfl
  rw [h2] at h1
  simp at h1

/-- C15, amended: a failure raised by the callable of a `hng::defer` does not reach the
code around the guarded scope. The destructor `~defer()` is `noexcept` (and the
`HNG_DEFER_*` macros wrap the block in a `noexcept` lambda), so when the scope is left
and the callable throws, `std::terminate()` is called: the scope neither falls through,
nor returns, nor throws, whichever constructor or macro declared the guard. -/
theorem defer_failure_terminates {S V : Type} (callable : Callable S) (body : Code S V)
    (s s2 : S) (e : Exn) (hbody : (body s).1 ≠ .terminated)
    (hf : callable.body (body s).2 = (.thrown e, s2)) :
    scope [Statement.declare_defer (defer.of_rvalue callable), Statement.code body] s
      = (.terminated, s2) ∧
    scope [Statement.declare_defer (defer.of_const_ref callable), Statement.code body] s
      = (.terminated, s2) ∧
    scope [HNG_DEFER_CALLABLE_VARIABLE callable, Statement.code body] s
      = (.terminated, s2) ∧
    scope [HNG_DEFER_NAMED_BEGIN callable.body, Statement.code body] s
      = (.terminated, s2) ∧
    scope [HNG_DEFER_BLOCK callable.body, Statement.code body] s = (.terminated, s2) ∧
    scope [HNG_DEFER_BEGIN callable.body, Statement.code body] s = (.terminated, s2) :=
  ⟨scope_guard_terminated (defer.of_rvalue callable) body s s2 e hbody hf,
   scope_guard_terminated (defer.of_const_ref callable) body s s2 e hbody hf,
   scope_guard_terminated (defer.of_rvalue callable) body s s2 e hbody hf,
   scope_guard_terminated (defer.of_rvalue (noexcept_lambda callable.body)) body s s2 e
     hbody hf,
   scope_guard_terminated (defer.of_rvalue (noexcept_lambda callable.body)) body s s2 e
     hbody hf,
   scope_guard_terminated (defer.of_rvalue (noexcept_lambda callable.body)) body s s2 e
     hbody hf⟩

/-- The body sets `x = 2` from `x = 1` and falls through; the callable throws "test": the
scope ends in `std::terminate()` with `x == 2`. -/
theorem defer_failure_terminates_witness :
    ((fun _ : Int => ((Completion.normal : Completion Unit), (2 : Int))) 1).1
      ≠ .terminated ∧
    (lambda (defer_tests.throw_test (S := Int))).body 2
      = (.thrown (.runtime_error "test"), 2) ∧
    scope [Statement.declare_defer (defer.of_rvalue (lambda defer_tests.throw_test)),
        Statement.code (fun _ : Int => ((Completion.normal : Completion Unit), (2 : Int)))]
        1 = (.terminated, 2) :=
  ⟨by simp, rfl,
   (defer_failure_terminates (lambda defer_tests.throw_test)
     (fun _ : Int => ((Completion.normal : Completion Unit), (2 : Int))) 1 2
     (.runtime_error "test") (by simp) rfl).1⟩

/-- The destructor does not depend on whether the guarded lambda is `noexcept`. -/
theorem destructor_lambda_eq {S : Type} (block : Block S Unit) (s : S) :
    (defer.of_rvalue (noexcept_lambda block)).destructor s
      = (defer.of_rvalue (lambda block)).destructor s := by
  rcases h : block s with ⟨o, s1⟩
  cases o <;> simp [defer.destructor, Callable.call, defer.of_rvalue, noexcept_lambda,
    lambda, h]

/-- C19: every guard macro form is the direct construction of a `hng::defer` with the same
block: `HNG_DEFER_BLOCK`, `HNG_DEFER_NAMED_BEGIN/END` and `HNG_DEFER_BEGIN/END` declare
the guard over the `noexcept` lambda of the block, `HNG_DEFER_CALLABLE_VARIABLE` over the
given callable; a scope that starts with a macro form behaves as the scope that starts
with the guard copy-constructed from that lambda, or constructed from the lambda without
`noexcept`. For each form, with block and body traced, the log gains the body and then
the block, once: the block has not run while the scope is executing and has run exactly
once after it. In the four macro tests the pointer has its original value inside the
scope and is null afterwards. -/
theorem defer_macros_are_direct_construction {S V Ev : Type} (block : Block S Unit)
    (callable_variable : Callable S) (rest : List (Statement S V)) (body : Code S V)
    (b g : Ev) (s : S) (log : List Ev) :
    (HNG_DEFER_BLOCK block : Statement S V)
      = Statement.declare_defer (defer.of_rvalue (noexcept_lambda block)) ∧
    (HNG_DEFER_NAMED_BEGIN block : Statement S V)
      = Statement.declare_defer (defer.of_rvalue (noexcept_lambda block)) ∧
    (HNG_DEFER_BEGIN block : Statement S V)
      = Statement.declare_defer (defer.of_rvalue (noexcept_lambda block)) ∧
    (HNG_DEFER_CALLABLE_VARIABLE callable_variable : Statement S V)
      = Statement.declare_defer (defer.of_rvalue callable_variable) ∧
    scope (HNG_DEFER_BLOCK block :: rest) s
      = scope (Statement.declare_defer (defer.of_const_ref (noexcept_lambda block))
          :: rest) s ∧
    scope (HNG_DEFER_BLOCK block :: rest) s
      = scope (Statement.declare_defer (defer.of_rvalue (lambda block)) :: rest) s ∧
    ((body s).1 ≠ .terminated →
      (scope [HNG_DEFER_BLOCK (traced g block), Statement.code (traced_code b body)]
        (s, log)).2.2 = log ++ [b, g] ∧
      (scope [HNG_DEFER_NAMED_BEGIN (traced g block), Statement.code (traced_code b body)]
        (s, log)).2.2 = log ++ [b, g] ∧
      (scope [HNG_DEFER_BEGIN (traced g block), Statement.code (traced_code b body)]
        (s, log)).2.2 = log ++ [b, g] ∧
      (scope [HNG_DEFER_CALLABLE_VARIABLE (callable_variable.traced g),
        Statement.code (traced_code b body)] (s, log)).2.2 = log ++ [b, g]) ∧
    defer_tests.defer_test (HNG_DEFER_BEGIN defer_tests.delete_raw_ptr) 3 (some 3)
      = (.returned true, none) ∧
    defer_tests.defer_test (HNG_DEFER_BLOCK defer_tests.delete_raw_ptr) 2 (some 2)
      = (.returned true, none) ∧
    defer_tests.defer_test (HNG_DEFER_NAMED_BEGIN defer_tests.delete_raw_ptr) 1 (some 1)
      = (.returned true, none) ∧
    defer_tests.defer_test
        (HNG_DEFER_CALLABLE_VARIABLE (noexcept_lambda defer_tests.delete_raw_ptr))
        (-3) (some (-3)) = (.returned true, none) := by
  refine ⟨rfl, rfl, rfl, rfl, rfl, ?_, fun h => ⟨?_, ?_, ?_, ?_⟩, rfl, rfl, rfl, rfl⟩
  · simp only [HNG_DEFER_BLOCK, HNG_DEFER_NAMED_BEGIN, scope, destructor_lambda_eq]
  · exact scope_guard_traced_log ⟨noexcept_lambda block⟩ body b g s log h
  · exact scope_guard_traced_log ⟨noexcept_lambda block⟩ body b g s log h
  · exact scope_guard_traced_log ⟨noexcept_lambda block⟩ body b g s log h
  · exact scope_guard_traced_log ⟨callable_variable⟩ body b g s log h

/-- The macro forms around the check of the tests, with the pointer holding 3: the log is
body, block under `HNG_DEFER_BLOCK`. -/
theorem defer_macros_are_direct_construction_witness :
    (defer_tests.check_raw_ptr 3 (some 3)).1 ≠ .terminated ∧
    (scope [HNG_DEFER_BLOCK (traced 1 defer_tests.delete_raw_ptr),
        Statement.code (traced_code 0 (defer_tests.check_raw_ptr 3))]
        (some 3, ([] : List Nat))).2.2 = [0, 1] :=
  have hbody : (defer_tests.check_raw_ptr 3 (some 3)).1 ≠ .terminated := by
    simp [defer_tests.check_raw_ptr]
  ⟨hbody,
   ((defer_macros_are_direct_construction defer_tests.delete_raw_ptr
      (noexcept_lambda defer_tests.delete_raw_ptr) [] (defer_tests.check_raw_ptr 3) 0 1
      (some 3) []).2.2.2.2.2.2.1 hbody).1⟩

/-! ## Which failures survive -/

/-- The object built by `std::throw_with_nested(hng::defer_exception(e_f))` while `e_p` is
in flight is a new object: it is neither `e_p` nor `e_f`. -/
theorem throw_with_nested_ne (e_p e_f : Exn) :
    throw_with_nested (defer_exception.of_exception_ptr (some e_f)) (some e_p) ≠ e_p ∧
    throw_with_nested (defer_exception.of_exception_ptr (some e_f)) (some e_p) ≠ e_f := by
  constructor <;> intro h <;> have hsize := congrArg sizeOf h <;>
    simp [throw_with_nested, defer_exception.of_exception_ptr,
      defer_exception.of_message] at hsize <;> omega

/-- C16: the guarded block swallows no failure except under discard when both sides
fail. With `op` the outcome of the protected block and `of` the outcome of the finalizer:
under every mode a value is returned only if both returned; under preserve every failure
of either side is raised itself, or is the `exception_ptr()` of the raised
`hng::defer_exception`, or is its nested failure; under discard, unless both sides fail,
the failure of the failing side is raised itself. -/
theorem guarded_keeps_failures {S V : Type} (F : Block S Unit) (P : Block S V)
    (s s1 s2 : S) (op : Outcome V) (of : Outcome Unit) (hP : P s = (op, s1))
    (hF : F s1 = (of, s2)) :
    (∀ (mode : Nat) (v : V) (t : S),
      DETAIL_HNG_DT_DEFER_FINALLY mode F P s = (.returned v, t) →
        op = .returned v ∧ of = .returned () ∧ t = s2) ∧
    (∀ e : Exn, (op = .thrown e ∨ of = .thrown e) →
      ∃ raised : Exn, HNG_DT_DEFER_FINALLY_PRESERVE F P s = (.thrown raised, s2) ∧
        (raised = e ∨
         (∃ base, raised.as_defer_exception = some base ∧ base.exception_ptr = some e) ∨
         raised.rethrow_if_nested = .thrown e)) ∧
    (∀ e : Exn, (op = .thrown e ∨ of = .thrown e) →
      ¬ ((∃ e_p, op = .thrown e_p) ∧ (∃ e_f, of = .thrown e_f)) →
      HNG_DT_DEFER_FINALLY F P s = (.thrown e, s2)) := by
  cases op with
  | returned v0 =>
    cases of with
    | returned u =>
      have h := fun mode => guarded_returned_returned mode F P s s1 s2 v0 hP hF
      refine ⟨fun mode v t hr => ?_, fun e he => ?_, fun e he _ => ?_⟩
      · rw [h mode] at hr
        simp only [Prod.mk.injEq, Outcome.returned.injEq] at hr
        exact ⟨by rw [hr.1], rfl, hr.2.symm⟩
      · simp at he
      · simp at he
    | thrown e_f =>
      have h := fun mode => guarded_returned_thrown mode F P s s1 s2 v0 e_f hP hF
      refine ⟨fun mode v t hr => ?_, fun e he => ?_, fun e he _ => ?_⟩
      · rw [h mode] at hr
        simp at hr
      · simp only [reduceCtorEq, Outcome.thrown.injEq, false_or] at he
        subst he
        exact ⟨e_f, h 1, Or.inl rfl⟩
      · simp only [reduceCtorEq, Outcome.thrown.injEq, false_or] at he
        subst he
        exact h 0
  | thrown e_p =>
    cases of with
    | returned u =>
      have h := fun mode => guarded_thrown_returned mode F P s s1 s2 e_p hP hF
      refine ⟨fun mode v t hr => ?_, fun e he => ?_, fun e he _ => ?_⟩
      · rw [h mode] at hr
        simp at hr
      · simp only [Outcome.thrown.injEq, reduceCtorEq, or_false] at he
        subst he
        exact ⟨e_p, h 1, Or.inl rfl⟩
      · simp only [Outcome.thrown.injEq, reduceCtorEq, or_false] at he
        subst he
        exact h 0
    | thrown e_f =>
      refine ⟨fun mode v t hr => ?_, fun e he => ?_, fun e _ hnot => ?_⟩
      · by_cases hm : mode = 1
        · subst hm
          rw [guarded_thrown_thrown_preserve F P s s1 s2 e_p e_f hP hF] at hr
          simp at hr
        · rw [guarded_thrown_thrown_discard mode hm F P s s1 s2 e_p e_f hP hF] at hr
          simp at hr
      · refine ⟨_, guarded_thrown_thrown_preserve F P s s1 s2 e_p e_f hP hF, ?_⟩
        simp only [Outcome.thrown.injEq] at he
        rcases he with he | he
        · subst he
          exact Or.inr (Or.inr rfl)
        · subst he
          exact Or.inr (Or.inl ⟨_, rfl, rfl⟩)
      · exact absurd ⟨⟨e_p, rfl⟩, ⟨e_f, rfl⟩⟩ hnot

/-- The four combinations with the try block `x = 2;` or `throw "e1"` and the defer block
`x = 0;` or `throw "e2"`: under preserve, "e1" is the nested failure and "e2" the carried
one when both throw; under discard "e1" is raised when only the try block throws. -/
theorem guarded_keeps_failures_witness :
    defer_tests.throw_e1 () = (.thrown (.runtime_error "e1"), ()) ∧
    defer_tests.throw_e2 () = (.thrown (.runtime_error "e2"), ()) ∧
    (∃ raised : Exn,
      HNG_DT_DEFER_FINALLY_PRESERVE defer_tests.throw_e2 defer_tests.throw_e1 ()
        = (.thrown raised, ()) ∧
      (raised = .runtime_error "e1" ∨
       (∃ base, raised.as_defer_exception = some base ∧
          base.exception_ptr = some (.runtime_error "e1")) ∨
       raised.rethrow_if_nested = .thrown (.runtime_error "e1"))) ∧
    HNG_DT_DEFER_FINALLY defer_tests.x_reset (defer_tests.throw_test (V := Unit)) 1
      = (.thrown (.runtime_error "test"), 0) :=
  ⟨rfl, rfl,
   (guarded_keeps_failures defer_tests.throw_e2 defer_tests.throw_e1 () () ()
      (.thrown (.runtime_error "e1")) (.thrown (.runtime_error "e2")) rfl rfl).2.1
      (.runtime_error "e1") (Or.inl rfl),
   (guarded_keeps_failures defer_tests.x_reset (defer_tests.throw_test (V := Unit)) 1 1 0
      (.thrown (.runtime_error "test")) (.returned ()) rfl rfl).2.2
      (.runtime_error "test") (Or.inl rfl) (by simp)⟩

/-- C17: a new chained failure is built exactly when the policy is preserve and both
sides fail. With `op` the outcome of the protected block and `of` that of the finalizer:
the two policies always leave the same state; unless both sides fail they give the same
result; whatever discard raises is the failure of the protected block or of the
finalizer, unchanged, and so is whatever preserve raises unless both sides fail; when
both fail with `e_p` and `e_f`, preserve raises the object built by
`std::throw_with_nested(hng::defer_exception(e_f))`, which is neither `e_p` nor `e_f`,
while discard raises `e_f` itself. -/
theorem chained_failure_iff_preserve_and_both_fail {S V : Type} (F : Block S Unit)
    (P : Block S V) (s s1 s2 : S) (op : Outcome V) (of : Outcome Unit)
    (hP : P s = (op, s1)) (hF : F s1 = (of, s2)) :
    (HNG_DT_DEFER_FINALLY F P s).2 = (HNG_DT_DEFER_FINALLY_PRESERVE F P s).2 ∧
    (¬ ((∃ e_p, op = .thrown e_p) ∧ (∃ e_f, of = .thrown e_f)) →
      HNG_DT_DEFER_FINALLY F P s = HNG_DT_DEFER_FINALLY_PRESERVE F P s) ∧
    (∀ (raised : Exn) (t : S), HNG_DT_DEFER_FINALLY F P s = (.thrown raised, t) →
      op = .thrown raised ∨ of = .thrown raised) ∧
    (∀ (raised : Exn) (t : S), HNG_DT_DEFER_FINALLY_PRESERVE F P s = (.thrown raised, t) →
      ¬ ((∃ e_p, op = .thrown e_p) ∧ (∃ e_f, of = .thrown e_f)) →
      op = .thrown raised ∨ of = .thrown raised) ∧
    (∀ e_p e_f : Exn, op = .thrown e_p → of = .thrown e_f →
      HNG_DT_DEFER_FINALLY F P s = (.thrown e_f, s2) ∧
      HNG_DT_DEFER_FINALLY_PRESERVE F P s
        = (.thrown (throw_with_nested (defer_exception.of_exception_ptr (some e_f))
            (some e_p)), s2) ∧
      throw_with_nested (defer_exception.of_exception_ptr (some e_f)) (some e_p) ≠ e_p ∧
      throw_with_nested (defer_exception.of_exception_ptr (some e_f)) (some e_p) ≠ e_f) := by
  refine ⟨by rw [HNG_DT_DEFER_FINALLY, HNG_DT_DEFER_FINALLY_PRESERVE, guarded_state,
    guarded_state], ?_⟩
  cases op with
  | returned v0 =>
    cases of with
    | returned u =>
      have h := fun mode => guarded_returned_returned mode F P s s1 s2 v0 hP hF
      simp [HNG_DT_DEFER_FINALLY, HNG_DT_DEFER_FINALLY_PRESERVE, h]
    | thrown e_f =>
      have h := fun mode => guarded_returned_thrown mode F P s s1 s2 v0 e_f hP hF
      simp only [HNG_DT_DEFER_FINALLY, HNG_DT_DEFER_FINALLY_PRESERVE, h]
      refine ⟨fun _ => trivial, fun raised t hr => ?_, fun raised t hr _ => ?_, ?_⟩
      · simp only [Prod.mk.injEq, Outcome.thrown.injEq] at hr
        exact Or.inr (by rw [hr.1])
      · simp only [Prod.mk.injEq, Outcome.thrown.injEq] at hr
        exact Or.inr (by rw [hr.1])
      · intro e_p e_f1 hop
        simp at hop
  | thrown e_p =>
    cases of with
    | returned u =>
      have h := fun mode => guarded_thrown_returned mode F P s s1 s2 e_p hP hF
      simp only [HNG_DT_DEFER_FINALLY, HNG_DT_DEFER_FINALLY_PRESERVE, h]
      refine ⟨fun _ => trivial, fun raised t hr => ?_, fun raised t hr _ => ?_, ?_⟩
      · simp only [Prod.mk.injEq, Outcome.thrown.injEq] at hr
        exact Or.inl (by rw [hr.1])
      · simp only [Prod.mk.injEq, Outcome.thrown.injEq] at hr
        exact Or.inl (by rw [hr.1])
      · intro e_p1 e_f hop hof
        simp at hof
    | thrown e_f =>
      have h0 := guarded_thrown_thrown_discard 0 (by decide) F P s s1 s2 e_p e_f hP hF
      have h1 := guarded_thrown_thrown_preserve F P s s1 s2 e_p e_f hP hF
      simp only [HNG_DT_DEFER_FINALLY, HNG_DT_DEFER_FINALLY_PRESERVE, h0, h1]
      refine ⟨fun hnot => absurd ⟨⟨e_p, rfl⟩, ⟨e_f, rfl⟩⟩ hnot, fun raised t hr => ?_,
        fun raised t _ hnot => absurd ⟨⟨e_p, rfl⟩, ⟨e_f, rfl⟩⟩ hnot, ?_⟩
      · simp only [Prod.mk.injEq, Outcome.thrown.injEq] at hr
        exact Or.inr (by rw [hr.1])
      · intro e_p1 e_f1 hop hof
        simp only [Outcome.thrown.injEq] at hop hof
        subst hop hof
        exact ⟨rfl, rfl, throw_with_nested_ne e_p e_f⟩

/-- Tests "PRESERVE - try block exception" and "try block exception" agree (only the try
block throws); with "e1" and "e2" both thrown, discard raises "e2" and preserve raises
the chained object. -/
theorem chained_failure_iff_preserve_and_both_fail_witness :
    defer_tests.throw_test (V := Unit) (1 : Int) = (.thrown (.runtime_error "test"), 1) ∧
    defer_tests.x_reset 1 = (.returned (), 0) ∧
    HNG_DT_DEFER_FINALLY defer_tests.x_reset (defer_tests.throw_test (V := Unit)) 1
      = HNG_DT_DEFER_FINALLY_PRESERVE defer_tests.x_reset
          (defer_tests.throw_test (V := Unit)) 1 ∧
    HNG_DT_DEFER_FINALLY defer_tests.throw_e2 defer_tests.throw_e1 ()
      = (.thrown (.runtime_error "e2"), ()) ∧
    HNG_DT_DEFER_FINALLY_PRESERVE defer_tests.throw_e2 defer_tests.throw_e1 ()
      = (.thrown (throw_with_nested
          (defer_exception.of_exception_ptr (some (.runtime_error "e2")))
          (some (.runtime_error "e1"))), ()) :=
  have h := (chained_failure_iff_preserve_and_both_fail defer_tests.throw_e2
    defer_tests.throw_e1 () () () (.thrown (.runtime_error "e1"))
    (.thrown (.runtime_error "e2")) rfl rfl).2.2.2.2 (.runtime_error "e1")
    (.runtime_error "e2") rfl rfl
  ⟨rfl, rfl,
   (chained_failure_iff_preserve_and_both_fail defer_tests.x_reset
      (defer_tests.throw_test (V := Unit)) 1 1 0 (.thrown (.runtime_error "test"))
      (.returned ()) rfl rfl).2.1 (by simp),
   h.1, h.2.1⟩

/-- C20: the fallback version of `DETAIL_HNG_DT_END_TRY_STATEMENTS` (built on `dt_invoke`
and `dt_return_forward`) and the C++17 version are observationally equal. For every
result type (`void`, lvalue reference, value, rvalue reference), protected block,
finalizer, mode and state, the try statements give the same outcome, the same
`DETAIL_HNG_DT_invoked` and the same state, and so do the guarded blocks built on them;
with both blocks traced, each version logs the protected block and then the finalizer,
once. -/
theorem try_statements_versions_agree {S L T Ev : Type} (mem : Objects S L T)
    (R : ResultType) (mode : Nat) (F : Block S Unit) (P : Block S (R.Call L T))
    (invoked : Bool) (s : S) (a b : Ev) (log : List Ev) :
    DETAIL_HNG_DT_END_TRY_STATEMENTS_FALLBACK mem R mode F P invoked s
      = DETAIL_HNG_DT_END_TRY_STATEMENTS_CPP17 mem R mode F P invoked s ∧
    DETAIL_HNG_DT_DEFER_FINALLY_FALLBACK mem R mode F P s
      = DETAIL_HNG_DT_DEFER_FINALLY_CPP17 mem R mode F P s ∧
    (DETAIL_HNG_DT_DEFER_FINALLY_FALLBACK (mem.with_log Ev) R mode (traced b F)
      (traced a P) (s, log)).2.2 = log ++ [a, b] ∧
    (DETAIL_HNG_DT_DEFER_FINALLY_CPP17 (mem.with_log Ev) R mode (traced b F)
      (traced a P) (s, log)).2.2 = log ++ [a, b] := by
  refine ⟨try_statements_fallback_eq mem R mode F P invoked s, ?_, ?_,
    guarded_cpp17_traced_log mem R mode a b F P s log⟩
  · rw [guarded_fallback_eq]
  · rw [guarded_fallback_eq]
    exact guarded_cpp17_traced_log mem R mode a b F P s log

/-! ## When the result is taken -/

/-- C21: a protected block `return x;` that returns the content of the caller-owned object
`ref` by value, with a succeeding finalizer: the guarded block returns the content the
object had when the return expression was evaluated, in the C++17 branch and in the
fallback, whatever the finalizer did to the state. For the finalizer that overwrites the
object with `w`: the result is still the earlier content, while the object holds `w`
afterwards. -/
theorem value_result_captured_before_finalizer {S L T : Type} (mem : Objects S L T)
    (hload : ∀ (t : S) (r : L) (v : T), mem.load (mem.store t r v) r = v) (mode : Nat)
    (F : Block S Unit) (ref : L) (w : T) (s s2 : S) (hF : F s = (.returned (), s2)) :
    DETAIL_HNG_DT_DEFER_FINALLY_CPP17 mem ResultType.value mode F
        (return_ fun t => mem.load t ref) s = (.returned (mem.load s ref), s2) ∧
    DETAIL_HNG_DT_DEFER_FINALLY_FALLBACK mem ResultType.value mode F
        (return_ fun t => mem.load t ref) s = (.returned (mem.load s ref), s2) ∧
    DETAIL_HNG_DT_DEFER_FINALLY_CPP17 mem ResultType.value mode
        (stmt fun t => mem.store t ref w) (return_ fun t => mem.load t ref) s
      = (.returned (mem.load s ref), mem.store s ref w) ∧
    DETAIL_HNG_DT_DEFER_FINALLY_FALLBACK mem ResultType.value mode
        (stmt fun t => mem.store t ref w) (return_ fun t => mem.load t ref) s
      = (.returned (mem.load s ref), mem.store s ref w) ∧
    mem.load (DETAIL_HNG_DT_DEFER_FINALLY_CPP17 mem ResultType.value mode
        (stmt fun t => mem.store t ref w) (return_ fun t => mem.load t ref) s).2 ref
      = w := by
  have h1 : DETAIL_HNG_DT_DEFER_FINALLY_CPP17 mem ResultType.value mode F
      (return_ fun t => mem.load t ref) s = (.returned (mem.load s ref), s2) := by
    rw [guarded_cpp17_eq]
    exact guarded_returned_returned mode F _ s s s2 (mem.load s ref) rfl hF
  have h2 : DETAIL_HNG_DT_DEFER_FINALLY_CPP17 mem ResultType.value mode
      (stmt fun t => mem.store t ref w) (return_ fun t => mem.load t ref) s
      = (.returned (mem.load s ref), mem.store s ref w) := by
    rw [guarded_cpp17_eq]
    exact guarded_returned_returned mode _ _ s s (mem.store s ref w) (mem.load s ref)
      rfl rfl
  refine ⟨h1, ?_, h2, ?_, ?_⟩
  · rw [guarded_fallback_eq]
    exact h1
  · rw [guarded_fallback_eq]
    exact h2
  · rw [h2]
    exact hload s ref w

/-- From `x = 1`, the try block `return x;` and the defer block `x = 0;`: the guarded
block yields 1 and `x == 0` afterwards. -/
theorem value_result_captured_before_finalizer_witness :
    (∀ (t : Int) (r : Unit) (v : Int),
      scenarios.x_object.load (scenarios.x_object.store t r v) r = v) ∧
    defer_tests.x_reset 1 = (.returned (), 0) ∧
    DETAIL_HNG_DT_DEFER_FINALLY_CPP17 scenarios.x_object ResultType.value 0
        defer_tests.x_reset scenarios.return_x 1 = (.returned (1 : Int), 0) ∧
    DETAIL_HNG_DT_DEFER_FINALLY_FALLBACK scenarios.x_object ResultType.value 0
        defer_tests.x_reset scenarios.return_x 1 = (.returned (1 : Int), 0) :=
  have h := value_result_captured_before_finalizer scenarios.x_object
    (fun _ _ _ => rfl) 0 defer_tests.x_reset () 0 1 0 rfl
  ⟨fun _ _ _ => rfl, rfl, h.1, h.2.1⟩

/-- C22: when the protected block yields an rvalue reference `ref` to a caller-owned
object, `DETAIL_HNG_DT_result` is move-constructed from it before the finalizer runs:
every finalizer runs on the state in which the object is moved-from (emptied); when the
finalizer then fails with `e_f`, the guarded block raises `e_f` in both versions and
under every mode, returns no value, so the former content is not handed to the caller,
and nothing is moved back: when the finalizer left the object alone it is still
moved-from afterwards. -/
theorem rvalue_reference_source_emptied_before_finalizer {S L T : Type}
    (mem : Objects S L T)
    (hload : ∀ (t : S) (r : L) (v : T), mem.load (mem.store t r v) r = v) (mode : Nat)
    (F : Block S Unit) (P : Block S L) (s s1 s2 : S) (ref : L) (e_f : Exn)
    (hP : P s = (.returned ref, s1))
    (hF : F (mem.store s1 ref (mem.moved_from (mem.load s1 ref))) = (.thrown e_f, s2)) :
    mem.load (mem.store s1 ref (mem.moved_from (mem.load s1 ref))) ref
      = mem.moved_from (mem.load s1 ref) ∧
    (∀ G : Block S Unit,
      (DETAIL_HNG_DT_DEFER_FINALLY_CPP17 mem ResultType.rvalue_reference mode G P s).2
        = (G (mem.store s1 ref (mem.moved_from (mem.load s1 ref)))).2) ∧
    DETAIL_HNG_DT_DEFER_FINALLY_CPP17 mem ResultType.rvalue_reference mode F P s
      = (.thrown e_f, s2) ∧
    DETAIL_HNG_DT_DEFER_FINALLY_FALLBACK mem ResultType.rvalue_reference mode F P s
      = (.thrown e_f, s2) ∧
    (∀ (v : T) (t : S),
      DETAIL_HNG_DT_DEFER_FINALLY_CPP17 mem ResultType.rvalue_reference mode F P s
        ≠ (.returned v, t)) ∧
    (mem.load s2 ref = mem.load (mem.store s1 ref (mem.moved_from (mem.load s1 ref))) ref →
      mem.load (DETAIL_HNG_DT_DEFER_FINALLY_CPP17 mem ResultType.rvalue_reference mode F
        P s).2 ref = mem.moved_from (mem.load s1 ref)) := by
  have hinit : DETAIL_HNG_DT_result_CPP17 mem ResultType.rvalue_reference P s
      = (.returned (mem.load s1 ref),
         mem.store s1 ref (mem.moved_from (mem.load s1 ref))) := by
    simp [DETAIL_HNG_DT_result_CPP17, hP, Objects.move_construct]
  have hrun : DETAIL_HNG_DT_DEFER_FINALLY_CPP17 mem ResultType.rvalue_reference mode F P s
      = (.thrown e_f, s2) := by
    rw [guarded_cpp17_eq]
    exact guarded_returned_thrown mode F _ s _ s2 (mem.load s1 ref) e_f hinit hF
  refine ⟨hload _ _ _, fun G => ?_, hrun, ?_, fun v t => ?_, fun hkeep => ?_⟩
  · rw [guarded_cpp17_eq, guarded_state, hinit]
  · rw [guarded_fallback_eq]
    exact hrun
  · rw [hrun]
    simp
  · rw [hrun, hkeep]
    exact hload _ _ _

/-- From `x` owning 3 and `z = 1`, the try block `return std::move(x);` with result type
`std::unique_ptr<int>&&` and the defer block `z = x ? 1 : 0; throw "test";`: "test" is
raised, `z == 0` (the defer block saw `x` empty) and `x` is empty afterwards. -/
theorem rvalue_reference_source_emptied_before_finalizer_witness :
    (∀ (t : defer_tests.PtrLocals) (r : defer_tests.PtrName) (v : Option Int),
      defer_tests.ptr_objects.load (defer_tests.ptr_objects.store t r v) r = v) ∧
    defer_tests.return_ref_x ⟨some 3, 1⟩ = (.returned defer_tests.PtrName.x, ⟨some 3, 1⟩) ∧
    scenarios.z_records_x_then_throw ⟨none, 1⟩
      = (.thrown (.runtime_error "test"), ⟨none, 0⟩) ∧
    DETAIL_HNG_DT_DEFER_FINALLY_CPP17 defer_tests.ptr_objects ResultType.rvalue_reference 0
        scenarios.z_records_x_then_throw defer_tests.return_ref_x ⟨some 3, 1⟩
      = (.thrown (.runtime_error "test"), ⟨none, 0⟩) ∧
    DETAIL_HNG_DT_DEFER_FINALLY_FALLBACK defer_tests.ptr_objects
        ResultType.rvalue_reference 0 scenarios.z_records_x_then_throw
        defer_tests.return_ref_x ⟨some 3, 1⟩
      = (.thrown (.runtime_error "test"), ⟨none, 0⟩) :=
  have h := rvalue_reference_source_emptied_before_finalizer defer_tests.ptr_objects
    (fun _ _ _ => rfl) 0 scenarios.z_records_x_then_throw defer_tests.return_ref_x
    ⟨some 3, 1⟩ ⟨some 3, 1⟩ ⟨none, 0⟩ defer_tests.PtrName.x (.runtime_error "test")
    rfl rfl
  ⟨fun _ _ _ => rfl, rfl, rfl, h.2.2.1, h.2.2.2.1⟩

/-! ## The state the finalizer runs on -/

/-- The negation of C8 as stated: it is not the case that for every protected block the
final state is the finalizer applied to the state the protected block left. In the test
"expression return value by move" the try block `return std::move(x);` leaves `x` owning
3, the defer block `z = 2;` applied to that state would leave `x` owning 3, but after the
guarded block `x` is empty: the object was moved into the result before the defer block
ran. -/
theorem finalizer_state_counterexample :
    ¬ ∀ (mode : Nat) (F : Block defer_tests.PtrLocals Unit)
        (P : Block defer_tests.PtrLocals defer_tests.PtrName) (s : defer_tests.PtrLocals),
        (DETAIL_HNG_DT_DEFER_FINALLY_CPP17 defer_tests.ptr_objects
          ResultType.rvalue_reference mode F P s).2 = (F (P s).2).2 := by
  intro h
  exact absurd (h 0 defer_tests.z_set_2 defer_tests.return_ref_x ⟨some 3, 1⟩) (by decide)

/-- C8, amended: for a protected block whose result type is `void`, a non-reference type
or an lvalue reference, the finalizer runs on the state the protected block left: under
every mode, for all outcomes and in both versions of the try statements the final state
is the finalizer applied to the protected block applied to the initial state. For a
protected block that yields an rvalue reference, the referenced object is first moved
into `DETAIL_HNG_DT_result`: the final state is the finalizer applied to the state the
protected block left with that object moved-from (and to the state it left, when it
throws). Test "try block success": `x` starts 1, `xd` 0, the try block sets `x = 2`,
the defer block does `xd = x; x = 0;`; afterwards `x == 0` and `xd == 2`. -/
theorem finalizer_runs_on_try_block_state {S L T : Type} (mem : Objects S L T)
    (R : ResultType) (mode : Nat) (F : Block S Unit) (P : Block S (R.Call L T))
    (Pr : Block S L) (s : S) :
    (R ≠ ResultType.rvalue_reference →
      (DETAIL_HNG_DT_DEFER_FINALLY_CPP17 mem R mode F P s).2 = (F (P s).2).2 ∧
      (DETAIL_HNG_DT_DEFER_FINALLY_FALLBACK mem R mode F P s).2 = (F (P s).2).2) ∧
    (∀ (ref : L) (s1 : S), Pr s = (.returned ref, s1) →
      (DETAIL_HNG_DT_DEFER_FINALLY_CPP17 mem ResultType.rvalue_reference mode F Pr s).2
        = (F (mem.store s1 ref (mem.moved_from (mem.load s1 ref)))).2 ∧
      (DETAIL_HNG_DT_DEFER_FINALLY_FALLBACK mem ResultType.rvalue_reference mode F Pr s).2
        = (F (mem.store s1 ref (mem.moved_from (mem.load s1 ref)))).2) ∧
    (∀ (e : Exn) (s1 : S), Pr s = (.thrown e, s1) →
      (DETAIL_HNG_DT_DEFER_FINALLY_CPP17 mem ResultType.rvalue_reference mode F Pr s).2
        = (F s1).2 ∧
      (DETAIL_HNG_DT_DEFER_FINALLY_FALLBACK mem ResultType.rvalue_reference mode F Pr s).2
        = (F s1).2) ∧
    (∀ m : Objects defer_tests.SuccessLocals L T,
      DETAIL_HNG_DT_DEFER_FINALLY_CPP17 m ResultType.void 0 defer_tests.success_finally
        defer_tests.success_try ⟨1, 0⟩ = (.returned (), ⟨0, 2⟩)) ∧
    defer_tests.success_statement ⟨1, 0⟩ = (.returned (), ⟨0, 2⟩) := by
  refine ⟨fun hR => ?_, fun ref s1 hPr => ?_, fun e s1 hPr => ?_, fun m => rfl, rfl⟩
  · have h : (DETAIL_HNG_DT_DEFER_FINALLY_CPP17 mem R mode F P s).2 = (F (P s).2).2 := by
      rw [guarded_cpp17_eq, guarded_state]
      cases R with
      | void => rfl
      | lvalue_reference => rfl
      | value => rfl
      | rvalue_reference => exact absurd rfl hR
    exact ⟨h, by rw [guarded_fallback_eq]; exact h⟩
  · have h : (DETAIL_HNG_DT_DEFER_FINALLY_CPP17 mem ResultType.rvalue_reference mode F
        Pr s).2 = (F (mem.store s1 ref (mem.moved_from (mem.load s1 ref)))).2 := by
      rw [guarded_cpp17_eq, guarded_state]
      simp [DETAIL_HNG_DT_result_CPP17, hPr, Objects.move_construct]
    exact ⟨h, by rw [guarded_fallback_eq]; exact h⟩
  · have h : (DETAIL_HNG_DT_DEFER_FINALLY_CPP17 mem ResultType.rvalue_reference mode F
        Pr s).2 = (F s1).2 := by
      rw [guarded_cpp17_eq, guarded_state]
      simp [DETAIL_HNG_DT_result_CPP17, hPr]
    exact ⟨h, by rw [guarded_fallback_eq]; exact h⟩

/-- Tests "expression return value by reference" and "... by move", `x` owning 3 and
`z = 1`: by reference the final state is the defer block `z = 2;` applied to the state
the try block left (`x` owns 3, `z == 2`); by move `x` is empty and `z == 2`. -/
theorem finalizer_runs_on_try_block_state_witness :
    ResultType.lvalue_reference ≠ ResultType.rvalue_reference ∧
    defer_tests.return_ref_x ⟨some 3, 1⟩ = (.returned defer_tests.PtrName.x, ⟨some 3, 1⟩) ∧
    (defer_tests.by_reference ⟨some 3, 1⟩).2
      = (defer_tests.z_set_2 (defer_tests.return_ref_x ⟨some 3, 1⟩).2).2 ∧
    (defer_tests.by_reference ⟨some 3, 1⟩).2 = ⟨some 3, 2⟩ ∧
    (defer_tests.by_move ⟨some 3, 1⟩).2 = (defer_tests.z_set_2 ⟨none, 1⟩).2 ∧
    (defer_tests.by_move ⟨some 3, 1⟩).2 = ⟨none, 2⟩ :=
  have h := finalizer_runs_on_try_block_state defer_tests.ptr_objects
    ResultType.lvalue_reference 0 defer_tests.z_set_2 defer_tests.return_ref_x
    defer_tests.return_ref_x ⟨some 3, 1⟩
  ⟨by decide, rfl, (h.1 (by decide)).1, rfl,
   (h.2.1 defer_tests.PtrName.x ⟨some 3, 1⟩ rfl).1, rfl⟩

end hng
